import Mathlib

/-!
Shallow embedding of the `localtuya_ir_climate` multi-brand IR climate codec
(`custom_components/localtuya_ir_climate/climate_protocols/`), together with
proofs about the properties of its brand encoders.

Conventions of the embedding:
* Python floats carrying temperatures are modelled as `ℚ`.
* Python `int(x)` (truncation toward zero) is `pyTrunc`; Python 3 `round`
  (banker's rounding, half to even) is `pyRound`.
* Byte values are `ℕ`; Python `~x & 0xFF` on a byte is `invByte`.
* A protocol object's mutable attributes become an explicit state record that
  each `generateIrCode` consumes and returns.
* Pulse sequences are `List ℕ` of microsecond durations, index 0 a mark.
-/

set_option maxRecDepth 100000
set_option linter.unusedVariables false

unseal Rat.mul Rat.inv Rat.add Rat.sub Rat.ofScientific

/-- Python `int(q)`: truncation toward zero. -/
def pyTrunc (q : ℚ) : ℤ := if q < 0 then ⌈q⌉ else ⌊q⌋

/-- Python `int(q)` coerced to `ℕ` (used only where the argument is nonnegative). -/
def pyTruncNat (q : ℚ) : ℕ := (pyTrunc q).toNat

/-- Python 3 `round(q)`: round half to even (banker's rounding). -/
def pyRound (q : ℚ) : ℤ :=
  if q - ⌊q⌋ < 1/2 then ⌊q⌋
  else if (1:ℚ)/2 < q - ⌊q⌋ then ⌊q⌋ + 1
  else if Even ⌊q⌋ then ⌊q⌋ else ⌊q⌋ + 1

/-- Python `~x & 0xFF` for a nonnegative integer `x`. -/
def invByte (x : ℕ) : ℕ := 255 - x % 256

/-- Python `a & ~m` for nonnegative integers: clear in `a` the bits of `m`. -/
def clearBits (a m : ℕ) : ℕ := a - (a &&& m)

/-- Pointwise update of a byte-indexed store (Python `data[i] = v`). -/
def upd (f : ℕ → ℕ) (i v : ℕ) : ℕ → ℕ := fun j => if j = i then v else f j

/-- HVAC mode strings that the encoders branch on; `other` stands for any
string distinct from the recognized ones. -/
inductive HM | off | heat | cool | dry | fanOnly | auto | heatCool | other
  deriving DecidableEq, Repr

/-- Fan mode strings; `other` is any unrecognized string. -/
inductive FM | auto | low | medium | high | quiet | middle | other
  deriving DecidableEq, Repr

/-- Swing mode strings; `other` is any unrecognized string. -/
inductive SM | off | vertical | horizontal | both | other
  deriving DecidableEq, Repr

/-! ## Pulse encoding primitives shared by the brand classes -/

/-- One byte rendered LSB-first as 8 `[bit_mark, one_or_zero_space]` pairs. -/
def encodeByteLSB (mark oneSp zeroSp b : ℕ) : List ℕ :=
  (List.range 8).flatMap (fun i => [mark, if b.testBit i then oneSp else zeroSp])

/-- One byte rendered MSB-first as 8 `[bit_mark, one_or_zero_space]` pairs. -/
def encodeByteMSB (mark oneSp zeroSp b : ℕ) : List ℕ :=
  (List.range 8).flatMap (fun i => [mark, if b.testBit (7 - i) then oneSp else zeroSp])

/-- A byte list rendered LSB-first. -/
def encodeBytesLSB (mark oneSp zeroSp : ℕ) (bs : List ℕ) : List ℕ :=
  bs.flatMap (encodeByteLSB mark oneSp zeroSp)

/-- A byte list rendered MSB-first. -/
def encodeBytesMSB (mark oneSp zeroSp : ℕ) (bs : List ℕ) : List ℕ :=
  bs.flatMap (encodeByteMSB mark oneSp zeroSp)

/-- An `n`-bit word rendered MSB-first (bit `n-1` down to bit 0). -/
def encodeWordMSB (mark oneSp zeroSp n v : ℕ) : List ℕ :=
  (List.range n).flatMap (fun i => [mark, if v.testBit (n - 1 - i) then oneSp else zeroSp])

/-! ## LG (`lg.py`) -/

namespace LG

def TEMP_MIN : ℚ := 18
def TEMP_MAX : ℚ := 30
def COMMAND_OFF : ℕ := 0xC0000
def COMMAND_SWING : ℕ := 0x10000
def COMMAND_ON_COOL : ℕ := 0x00000
def COMMAND_ON_DRY : ℕ := 0x01000
def COMMAND_ON_FAN_ONLY : ℕ := 0x02000
def COMMAND_ON_AI : ℕ := 0x03000
def COMMAND_ON_HEAT : ℕ := 0x04000
def FAN_AUTO : ℕ := 0x50
def FAN_MIN : ℕ := 0x00
def FAN_MED : ℕ := 0x20
def FAN_MAX : ℕ := 0x40

def headerHigh : ℕ := 8000
def headerLow : ℕ := 4000
def bitHigh : ℕ := 500
def bitOneLow : ℕ := 1600
def bitZeroLow : ℕ := 500

/-- Mutable attributes of `LGProtocol`. -/
structure State where
  modeBefore : HM
  swingActive : Bool
  deriving DecidableEq, Repr

/-- Freshly constructed `LGProtocol` state. -/
def fresh : State := { modeBefore := HM.off, swingActive := false }

/-- `LGProtocol._calculate_checksum`: sum nibbles 1-7 into nibble 0. -/
def calculateChecksum (value : ℕ) : ℕ :=
  let sumVal := (List.range 7).foldl (fun acc i => acc + ((value >>> ((i + 1) * 4)) &&& 0xF)) 0
  (value &&& 0xFFFFFFF0) ||| (sumVal &&& 0xF)

/-- `LGProtocol._encode_to_pulses`: header, 28 bits MSB-first, final mark. -/
def encodeToPulses (value : ℕ) : List ℕ :=
  [headerHigh, headerLow] ++ encodeWordMSB bitHigh bitOneLow bitZeroLow 28 value ++ [bitHigh]

/-- `generate_ir_code`'s swing-change test: swing turning on or off. -/
def swingChanged (swingMode : SM) (s : State) : Bool :=
  if swingMode = SM.vertical ∧ ¬s.swingActive then true
  else if swingMode = SM.off ∧ s.swingActive then true
  else false

/-- The final 28-bit word of `LGProtocol.generate_ir_code` (its `remote_state`
after `_calculate_checksum`, just before `_encode_to_pulses`). -/
def finalWord (hvacMode : HM) (targetTemp : ℚ) (fanMode : FM) (swingMode : SM)
    (s : State) : ℕ :=
  let remoteState : ℕ := 0x8800000
  if swingChanged swingMode s ∧ hvacMode ≠ HM.off then
    calculateChecksum (remoteState ||| COMMAND_SWING)
  else
    let climateIsOff := s.modeBefore = HM.off
    let remoteState :=
      match hvacMode with
      | HM.off => remoteState ||| COMMAND_OFF
      | HM.cool => remoteState ||| (if climateIsOff then COMMAND_ON_COOL else 0x08000)
      | HM.dry => remoteState ||| (if climateIsOff then COMMAND_ON_DRY else 0x09000)
      | HM.fanOnly => remoteState ||| (if climateIsOff then COMMAND_ON_FAN_ONLY else 0x0A000)
      | HM.heatCool => remoteState ||| (if climateIsOff then COMMAND_ON_AI else 0x0B000)
      | HM.heat => remoteState ||| (if climateIsOff then COMMAND_ON_HEAT else 0x0C000)
      | _ => remoteState
    let remoteState :=
      if hvacMode = HM.off then remoteState ||| FAN_AUTO
      else
        match fanMode with
        | FM.high => remoteState ||| FAN_MAX
        | FM.medium => remoteState ||| FAN_MED
        | FM.low => remoteState ||| FAN_MIN
        | _ => remoteState ||| FAN_AUTO
    let remoteState :=
      if hvacMode = HM.cool ∨ hvacMode = HM.heat ∨ hvacMode = HM.heatCool ∨
          hvacMode = HM.auto ∨ hvacMode = HM.dry then
        let tempVal := pyTruncNat (max TEMP_MIN (min TEMP_MAX targetTemp))
        remoteState ||| ((tempVal - 15) <<< 8)
      else remoteState
    calculateChecksum remoteState

/-- The state mutation `generate_ir_code` performs:
`swing_active` / `mode_before` tracking. -/
def nextState (hvacMode : HM) (swingMode : SM) (s : State) : State :=
  let swingActive1 : Bool :=
    if swingMode = SM.vertical ∧ ¬s.swingActive then true
    else if swingMode = SM.off ∧ s.swingActive then false
    else s.swingActive
  if swingChanged swingMode s ∧ hvacMode ≠ HM.off then
    { s with swingActive := swingActive1 }
  else
    { modeBefore := hvacMode,
      swingActive := if hvacMode = HM.off then false else swingActive1 }

/-- `LGProtocol.generate_ir_code`: pulse list together with the updated state. -/
def generateIrCode (hvacMode : HM) (targetTemp : ℚ) (fanMode : FM) (swingMode : SM)
    (s : State) : List ℕ × State :=
  (encodeToPulses (finalWord hvacMode targetTemp fanMode swingMode s),
   nextState hvacMode swingMode s)

end LG

example : LG.finalWord HM.cool 24 FM.high SM.off LG.fresh = 0x880094D := by decide

example :
    (LG.generateIrCode HM.cool 24 FM.high SM.off LG.fresh).1 =
      LG.encodeToPulses 0x880094D := by decide

/-! ## Coolix (`coolix.py`) -/

namespace Coolix

def TEMP_MIN : ℚ := 17
def TEMP_MAX : ℚ := 30
def COOLIX_OFF : ℕ := 0xB27BE0
def COOLIX_SWING : ℕ := 0xB26BE0
def COOLIX_COOL : ℕ := 0b0000
def COOLIX_DRY_FAN : ℕ := 0b0100
def COOLIX_AUTO : ℕ := 0b1000
def COOLIX_HEAT : ℕ := 0b1100
def FAN_MODE_AUTO_DRY : ℕ := 0x1000
def FAN_AUTO : ℕ := 0xB000
def FAN_MIN : ℕ := 0x9000
def FAN_MED : ℕ := 0x5000
def FAN_MAX : ℕ := 0x3000
def FAN_TEMP_CODE : ℕ := 0b11100000
def TEMP_MAP : List ℕ :=
  [0b00000000, 0b00010000, 0b00110000, 0b00100000,
   0b01100000, 0b01110000, 0b01010000, 0b01000000,
   0b11000000, 0b11010000, 0b10010000, 0b10000000,
   0b10100000, 0b10110000]
def BASE_STATE : ℕ := 0xB20F00

def HEADER_MARK : ℕ := 4500
def HEADER_SPACE : ℕ := 4500
def BIT_MARK : ℕ := 560
def ONE_SPACE : ℕ := 1690
def ZERO_SPACE : ℕ := 560

/-- Mutable attribute of `CoolixProtocol`: the swing-command tracking flag. -/
structure State where
  swingPending : Bool
  deriving DecidableEq, Repr

def fresh : State := { swingPending := false }

/-- `CoolixProtocol._encode_coolix_command`: header, 3 bytes LSB-first, footer mark. -/
def encodeCoolixCommand (command : ℕ) : List ℕ :=
  [HEADER_MARK, HEADER_SPACE] ++
    encodeBytesLSB BIT_MARK ONE_SPACE ZERO_SPACE
      [(command >>> 16) &&& 0xFF, (command >>> 8) &&& 0xFF, command &&& 0xFF] ++
    [BIT_MARK]

/-- The 24-bit `remote_state` for the non-swing, non-off path of
`CoolixProtocol.generate_ir_code`. -/
def normalWord (hvacMode : HM) (targetTemp : ℚ) (fanMode : FM) : ℕ :=
  let remoteState := BASE_STATE
  let remoteState :=
    match hvacMode with
    | HM.cool => remoteState ||| COOLIX_COOL
    | HM.heat => remoteState ||| COOLIX_HEAT
    | HM.auto | HM.heatCool => remoteState ||| COOLIX_AUTO
    | HM.dry | HM.fanOnly => remoteState ||| COOLIX_DRY_FAN
    | _ => remoteState ||| COOLIX_AUTO
  let remoteState :=
    if hvacMode = HM.fanOnly then remoteState ||| FAN_TEMP_CODE
    else
      let tempVal := max TEMP_MIN (min TEMP_MAX targetTemp)
      let tempIndex := pyTruncNat tempVal - 17
      if tempIndex < TEMP_MAP.length then remoteState ||| TEMP_MAP.getD tempIndex 0
      else remoteState
  if hvacMode = HM.auto ∨ hvacMode = HM.heatCool ∨ hvacMode = HM.dry then
    remoteState ||| FAN_MODE_AUTO_DRY
  else
    match fanMode with
    | FM.high => remoteState ||| FAN_MAX
    | FM.medium => remoteState ||| FAN_MED
    | FM.low => remoteState ||| FAN_MIN
    | _ => remoteState ||| FAN_AUTO

/-- `CoolixProtocol.generate_ir_code`: pulse list and updated state. -/
def generateIrCode (hvacMode : HM) (targetTemp : ℚ) (fanMode : FM) (swingMode : SM)
    (s : State) : List ℕ × State :=
  if swingMode = SM.vertical ∧ ¬s.swingPending then
    (encodeCoolixCommand COOLIX_SWING, { swingPending := true })
  else if hvacMode = HM.off then
    (encodeCoolixCommand COOLIX_OFF, { swingPending := false })
  else
    (encodeCoolixCommand (normalWord hvacMode targetTemp fanMode),
     { swingPending := false })

end Coolix

/-! ## Hitachi AC344 (`hitachi.py`) -/

namespace Hitachi

def TEMP_MIN : ℤ := 16
def TEMP_MAX : ℤ := 32
def TEMP_FAN : ℤ := 27
def POWER_BYTE : ℕ := 27
def MODE_BYTE : ℕ := 25
def TEMP_BYTE : ℕ := 13
def FAN_BYTE : ℕ := 25
def SWINGH_BYTE : ℕ := 35
def SWINGV_BYTE : ℕ := 37
def BUTTON_BYTE : ℕ := 11
def POWER_ON : ℕ := 0xF1
def POWER_OFF : ℕ := 0xE1
def MODE_FAN : ℕ := 1
def MODE_COOL : ℕ := 3
def MODE_DRY : ℕ := 5
def MODE_HEAT : ℕ := 6
def MODE_AUTO : ℕ := 7
def FAN_MIN : ℕ := 1
def FAN_LOW : ℕ := 2
def FAN_MEDIUM : ℕ := 3
def FAN_HIGH : ℕ := 4
def FAN_AUTO : ℕ := 5
def FAN_MAX : ℕ := 6
def FAN_MAX_DRY : ℕ := 2
def TEMP_OFFSET : ℕ := 2
def TEMP_SIZE : ℕ := 6
def SWINGH_AUTO : ℕ := 0
def SWINGH_MIDDLE : ℕ := 3
def SWINGH_LEFT_MAX : ℕ := 5
def SWINGV_OFFSET : ℕ := 5
def BUTTON_POWER : ℕ := 0x13
def BUTTON_MODE : ℕ := 0x41
def BUTTON_FAN : ℕ := 0x42
def BUTTON_TEMP_DOWN : ℕ := 0x43
def BUTTON_TEMP_UP : ℕ := 0x44
def BUTTON_SWINGV : ℕ := 0x81
def BUTTON_SWINGH : ℕ := 0x8C
def STATE_LENGTH : ℕ := 43
def HDR_MARK : ℕ := 3300
def HDR_SPACE : ℕ := 1700
def BIT_MARK : ℕ := 400
def ONE_SPACE : ℕ := 1250
def ZERO_SPACE : ℕ := 500
def MIN_GAP : ℕ := 100000

/-- The initial 43-entry `remote_state` list of `HitachiProtocol.__init__`. -/
def initList : List ℕ :=
  [0x01, 0x10, 0x00, 0x40, 0x00, 0xFF, 0x00, 0xCC, 0x00, 0x00, 0x00,
   0x00, 0x00, 0x00, 0x00, 0x00, 0x00, 0x00, 0x00, 0x00, 0x00, 0x00,
   0x00, 0x00, 0x00, 0x00, 0x00, 0x00, 0x00, 0x01, 0x00, 0x01, 0x00,
   0x80, 0x00, 0x03, 0x00, 0x00, 0x00, 0x00, 0x00, 0x00, 0x00]

/-- Mutable attributes of `HitachiProtocol`: the 43-byte `remote_state`
(modelled as an index-to-byte function) and `previous_temp`. -/
structure State where
  remoteState : ℕ → ℕ
  previousTemp : ℤ

def fresh : State :=
  { remoteState := fun j => initList.getD j 0, previousTemp := 27 }

/-- `HitachiProtocol._set_bits` applied to a single byte: the value of `dst[0]`
after the call. Every call site of the source passes a fresh one-element list
`[self.remote_state[i]]`, so this value never flows back into the state. -/
def setBits (dst offset nbits data : ℕ) : ℕ :=
  if 8 ≤ offset ∨ nbits = 0 then dst
  else
    let mask := (1 <<< nbits) - 1
    let mask := if nbits = 8 then 0xFF else mask
    clearBits dst (mask <<< offset) ||| ((data &&& mask) <<< offset)

/-- `HitachiProtocol._get_bits`. -/
def getBits (data offset size : ℕ) : ℕ :=
  let mask := (1 <<< size) - 1
  let mask := if size = 8 then 0xFF else mask
  (data >>> offset) &&& mask

/-- `HitachiProtocol._set_power`: button and power bytes (direct writes). -/
def setPower (isOn : Bool) (s : State) : State :=
  let rs := upd (upd s.remoteState BUTTON_BYTE BUTTON_POWER) POWER_BYTE
    (if isOn then POWER_ON else POWER_OFF)
  { s with remoteState := rs }

/-- `HitachiProtocol._set_temp`. The temperature-bit write goes through
`_set_bits([self.remote_state[TEMP_BYTE]], ...)`, i.e. into a fresh one-element
list that is immediately discarded; only the button write (direct) and the
`previous_temp` update persist. -/
def setTemp (celsius : ℤ) (setPrevious : Bool) (s : State) : State :=
  let tempVal : ℤ := max TEMP_MIN (min TEMP_MAX celsius)
  let lost := setBits (s.remoteState TEMP_BYTE) TEMP_OFFSET TEMP_SIZE tempVal.toNat
  let rs :=
    if s.previousTemp > tempVal then upd s.remoteState BUTTON_BYTE BUTTON_TEMP_DOWN
    else if s.previousTemp < tempVal then upd s.remoteState BUTTON_BYTE BUTTON_TEMP_UP
    else s.remoteState
  let _ := lost
  { remoteState := rs,
    previousTemp := if setPrevious then tempVal else s.previousTemp }

/-- `HitachiProtocol._get_fan`. -/
def getFan (s : State) : ℕ := getBits (s.remoteState FAN_BYTE) 4 4

/-- `HitachiProtocol._set_fan`. The fan-bit write goes into a discarded fresh
one-element list; the button write and bytes 9 and 29 are direct writes. -/
def setFan (speed : ℕ) (s : State) : State :=
  let newSpeed := max speed FAN_MIN
  let currentMode := getBits (s.remoteState MODE_BYTE) 0 4
  let pair : ℕ × ℕ :=
    if currentMode = MODE_DRY ∧ speed = FAN_AUTO then (newSpeed, FAN_AUTO)
    else if currentMode = MODE_DRY then (newSpeed, FAN_MAX_DRY)
    else if currentMode = MODE_FAN ∧ speed = FAN_AUTO then (FAN_MIN, FAN_MAX)
    else (newSpeed, FAN_MAX)
  let newSpeed := min pair.1 pair.2
  let rs :=
    if newSpeed ≠ getFan s then upd s.remoteState BUTTON_BYTE BUTTON_FAN
    else s.remoteState
  let lost := setBits (s.remoteState FAN_BYTE) 4 4 newSpeed
  let _ := lost
  let rs := upd rs 9 (if newSpeed = FAN_MIN then 0x98 else 0x92)
  let rs := upd rs 29 0x01
  { s with remoteState := rs }

/-- `HitachiProtocol._set_mode`. The mode-bit write goes into a discarded
fresh one-element list. -/
def setMode (mode : ℕ) (s : State) : State :=
  let s1 := if mode = MODE_FAN then setTemp TEMP_FAN false s else s
  let newMode :=
    if mode = MODE_FAN then mode
    else if mode ≠ MODE_HEAT ∧ mode ≠ MODE_COOL ∧ mode ≠ MODE_DRY then MODE_COOL
    else mode
  let lost := setBits (s1.remoteState MODE_BYTE) 0 4 newMode
  let _ := lost
  let s2 := if newMode ≠ MODE_FAN then setTemp s1.previousTemp true s1 else s1
  let s3 := setFan (getFan s2) s2
  setPower true s3

/-- `HitachiProtocol._set_swing_v`. The swing-bit write goes into a discarded
fresh one-element list; only the conditional button write persists. -/
def setSwingV (isOn : Bool) (s : State) : State :=
  let rs := if isOn then upd s.remoteState BUTTON_BYTE BUTTON_SWINGV else s.remoteState
  { s with remoteState := rs }

/-- `HitachiProtocol._set_swing_h`. The position write goes into a discarded
fresh one-element list; only the button write persists. -/
def setSwingH (position : ℕ) (s : State) : State :=
  let posClamped := if position > SWINGH_LEFT_MAX then SWINGH_MIDDLE else position
  let lost := setBits (s.remoteState SWINGH_BYTE) 0 3 posClamped
  let _ := lost
  { s with remoteState := upd s.remoteState BUTTON_BYTE BUTTON_SWINGH }

/-- Core of `_invert_byte_pairs`: starting at index `i`, perform `fuel` steps
`data[i] = ~data[i-1] & 0xFF`, advancing by 2. -/
def invertFrom (f : ℕ → ℕ) (i fuel : ℕ) : ℕ → ℕ :=
  match fuel with
  | 0 => f
  | Nat.succ fl => invertFrom (upd f i (invByte (f (i - 1)))) (i + 2) fl

/-- `HitachiProtocol._invert_byte_pairs`: Python `range(start+1, start+length,
2)` performs `length / 2` steps. -/
def invertBytePairs (f : ℕ → ℕ) (start length : ℕ) : ℕ → ℕ :=
  invertFrom f (start + 1) (length / 2)

/-- The 43 bytes actually rendered by `_encode_to_pulses`. -/
def frameBytes (f : ℕ → ℕ) : List ℕ := (List.range STATE_LENGTH).map f

/-- `HitachiProtocol._encode_to_pulses`: header, 43 bytes LSB-first, footer
mark plus the long trailing gap. -/
def encodeToPulses (f : ℕ → ℕ) : List ℕ :=
  [HDR_MARK, HDR_SPACE] ++
    encodeBytesLSB BIT_MARK ONE_SPACE ZERO_SPACE (frameBytes f) ++
    [BIT_MARK, MIN_GAP]

/-- The mode dispatch at the top of `generate_ir_code`. -/
def stage1 (hvacMode : HM) (s : State) : State :=
  match hvacMode with
  | HM.cool => setMode MODE_COOL s
  | HM.heat => setMode MODE_HEAT s
  | HM.dry => setMode MODE_DRY s
  | HM.fanOnly => setMode MODE_FAN s
  | HM.auto | HM.heatCool => setMode MODE_AUTO s
  | HM.off => setPower false s
  | HM.other => setMode MODE_COOL s

/-- The `_set_temp(int(target_temp))` call of `generate_ir_code` (skipped for
OFF). -/
def stage2 (hvacMode : HM) (targetTemp : ℚ) (s1 : State) : State :=
  if hvacMode ≠ HM.off then setTemp (pyTrunc targetTemp) true s1 else s1

/-- The fan dispatch of `generate_ir_code` (skipped for OFF). -/
def stage3 (hvacMode : HM) (fanMode : FM) (s2 : State) : State :=
  if hvacMode ≠ HM.off then
    match fanMode with
    | FM.low => setFan FAN_LOW s2
    | FM.medium => setFan FAN_MEDIUM s2
    | FM.high => setFan FAN_HIGH s2
    | _ => setFan FAN_AUTO s2
  else s2

/-- The swing dispatch of `generate_ir_code`. -/
def stage4 (swingMode : SM) (s3 : State) : State :=
  match swingMode with
  | SM.both => setSwingH SWINGH_AUTO (setSwingV true s3)
  | SM.vertical => setSwingH SWINGH_MIDDLE (setSwingV true s3)
  | SM.horizontal => setSwingH SWINGH_AUTO (setSwingV false s3)
  | _ => setSwingH SWINGH_MIDDLE (setSwingV false s3)

/-- The state just before `_invert_byte_pairs`: stages 1-4 followed by the
final `remote_state[BUTTON_BYTE] = BUTTON_POWER` write. -/
def preInvertState (hvacMode : HM) (targetTemp : ℚ) (fanMode : FM)
    (swingMode : SM) (s : State) : State :=
  let s4 := stage4 swingMode (stage3 hvacMode fanMode
    (stage2 hvacMode targetTemp (stage1 hvacMode s)))
  { s4 with remoteState := upd s4.remoteState BUTTON_BYTE BUTTON_POWER }

/-- `HitachiProtocol.generate_ir_code`: pulse list and updated state.  The
returned state's `remoteState` is the emitted 43-byte frame. -/
def generateIrCode (hvacMode : HM) (targetTemp : ℚ) (fanMode : FM) (swingMode : SM)
    (s : State) : List ℕ × State :=
  let s5 := preInvertState hvacMode targetTemp fanMode swingMode s
  let s6 := { s5 with
    remoteState := invertBytePairs s5.remoteState 3 (STATE_LENGTH - 3) }
  (encodeToPulses s6.remoteState, s6)

end Hitachi

example :
    (Hitachi.generateIrCode HM.cool 24 FM.auto SM.off Hitachi.fresh).2.remoteState 3 = 0x40 ∧
    (Hitachi.generateIrCode HM.cool 24 FM.auto SM.off Hitachi.fresh).2.remoteState 4 = 0xBF ∧
    (Hitachi.generateIrCode HM.cool 24 FM.auto SM.off Hitachi.fresh).2.remoteState 2 = 0x00 ∧
    (Hitachi.generateIrCode HM.cool 24 FM.auto SM.off Hitachi.fresh).2.remoteState 11 = 0x13 ∧
    (Hitachi.generateIrCode HM.cool 24 FM.auto SM.off Hitachi.fresh).2.remoteState 12 = 0xEC ∧
    (Hitachi.generateIrCode HM.cool 24 FM.auto SM.off Hitachi.fresh).2.remoteState 9 = 0x92 :=
  by decide

example :
    (Hitachi.generateIrCode HM.cool 20 FM.auto SM.off Hitachi.fresh).1 =
    (Hitachi.generateIrCode HM.cool 29 FM.auto SM.off Hitachi.fresh).1 := by decide

/-! ## Ballu (`ballu.py`) -/

namespace Ballu

def TEMP_MIN : ℚ := 16
def TEMP_MAX : ℚ := 32
def STATE_LENGTH : ℕ := 13
def MODE_AUTO : ℕ := 0x00
def MODE_COOL : ℕ := 0x20
def MODE_DRY : ℕ := 0x40
def MODE_HEAT : ℕ := 0x80
def MODE_FAN : ℕ := 0xC0
def FAN_AUTO : ℕ := 0xA0
def FAN_HIGH : ℕ := 0x20
def FAN_MED : ℕ := 0x40
def FAN_LOW : ℕ := 0x60
def SWING_VER : ℕ := 0x07
def SWING_HOR : ℕ := 0xE0
def POWER_MASK : ℕ := 0x20
def FIXED_BYTE0 : ℕ := 0xC3
def FIXED_BYTE11 : ℕ := 0x1E
def HEADER_MARK : ℕ := 9000
def HEADER_SPACE : ℕ := 4500
def BIT_MARK : ℕ := 575
def ONE_SPACE : ℕ := 1675
def ZERO_SPACE : ℕ := 550

/-- `BalluProtocol._hvac_mode_to_ballu`. -/
def hvacModeToBallu (hvacMode : HM) : ℕ :=
  match hvacMode with
  | HM.heat => MODE_HEAT
  | HM.cool => MODE_COOL
  | HM.dry => MODE_DRY
  | HM.fanOnly => MODE_FAN
  | HM.auto | HM.heatCool => MODE_AUTO
  | _ => MODE_AUTO

/-- `BalluProtocol._fan_mode_to_ballu`. -/
def fanModeToBallu (fanMode : FM) : ℕ :=
  match fanMode with
  | FM.high => FAN_HIGH
  | FM.medium => FAN_MED
  | FM.low => FAN_LOW
  | _ => FAN_AUTO

/-- The 13-byte `remote_state` built by `BalluProtocol.generate_ir_code`
(bytes 0-11 then the additive checksum as byte 12). -/
def frame (hvacMode : HM) (targetTemp : ℚ) (fanMode : FM) (swingMode : SM) :
    List ℕ :=
  let tempVal := max TEMP_MIN (min TEMP_MAX targetTemp)
  let tempInt : ℤ := pyRound tempVal
  let swingVer := swingMode = SM.vertical ∨ swingMode = SM.both
  let swingHor := swingMode = SM.horizontal ∨ swingMode = SM.both
  let tempBits := (((tempInt - 8).toNat <<< 3)) &&& 0xF8
  let verSwingBits := if swingVer then 0x00 else SWING_VER
  let byte1 := tempBits ||| verSwingBits
  let byte2 := if swingHor then 0x00 else SWING_HOR
  let byte4 := fanModeToBallu fanMode
  let byte6 := hvacModeToBallu hvacMode
  let byte9 := if hvacMode ≠ HM.off then POWER_MASK else 0
  let bytes :=
    [FIXED_BYTE0, byte1, byte2, 0, byte4, 0, byte6, 0, 0, byte9, 0, FIXED_BYTE11]
  bytes ++ [bytes.sum % 256]

/-- `BalluProtocol._encode_to_pulses`: header, 13 bytes LSB-first, footer mark. -/
def encodeToPulses (rs : List ℕ) : List ℕ :=
  [HEADER_MARK, HEADER_SPACE] ++
    encodeBytesLSB BIT_MARK ONE_SPACE ZERO_SPACE rs ++ [BIT_MARK]

/-- `BalluProtocol.generate_ir_code` (the protocol is stateless). -/
def generateIrCode (hvacMode : HM) (targetTemp : ℚ) (fanMode : FM)
    (swingMode : SM) : List ℕ :=
  encodeToPulses (frame hvacMode targetTemp fanMode swingMode)

end Ballu

/-! ## TCL112 (`tcl.py`) -/

namespace TCL

def TEMP_MIN : ℚ := 16
def TEMP_MAX : ℚ := 31
def STATE_LENGTH : ℕ := 14
def TCL_HEAT : ℕ := 1
def TCL_DRY : ℕ := 2
def TCL_COOL : ℕ := 3
def TCL_FAN : ℕ := 7
def TCL_AUTO : ℕ := 8
def FAN_AUTO : ℕ := 0
def FAN_LOW : ℕ := 2
def FAN_MED : ℕ := 3
def FAN_HIGH : ℕ := 5
def VSWING_MASK : ℕ := 0x38
def POWER_MASK : ℕ := 0x04
def HALF_DEGREE : ℕ := 0b00100000
def HEADER_MARK : ℕ := 3100
def HEADER_SPACE : ℕ := 1650
def BIT_MARK : ℕ := 500
def ONE_SPACE : ℕ := 1100
def ZERO_SPACE : ℕ := 350
def GAP : ℕ := 1650
def FIXED_BYTE0 : ℕ := 0x23
def FIXED_BYTE1 : ℕ := 0xCB
def FIXED_BYTE2 : ℕ := 0x26
def FIXED_BYTE3 : ℕ := 0x01

/-- The clamped target temperature (`safe_temp`). -/
def safeTemp (targetTemp : ℚ) : ℚ := max TEMP_MIN (min TEMP_MAX targetTemp)

/-- `half_degrees = int(safe_temp * 2)`. -/
def halfDegrees (targetTemp : ℚ) : ℕ := pyTruncNat (safeTemp targetTemp * 2)

/-- The 14-byte `remote_state` built by `TCLProtocol.generate_ir_code`. -/
def frame (hvacMode : HM) (targetTemp : ℚ) (fanMode : FM) (swingMode : SM) :
    List ℕ :=
  let byte5 :=
    if hvacMode = HM.off then clearBits 0x24 POWER_MASK else 0x24 ||| POWER_MASK
  let byte6 :=
    if hvacMode = HM.off then 0x03
    else
      let cleared := 0x03 &&& 0xF0
      match hvacMode with
      | HM.heat => cleared ||| TCL_HEAT
      | HM.cool => cleared ||| TCL_COOL
      | HM.dry => cleared ||| TCL_DRY
      | HM.fanOnly => cleared ||| TCL_FAN
      | HM.auto | HM.heatCool => cleared ||| TCL_AUTO
      | _ => cleared ||| TCL_AUTO
  let hd := halfDegrees targetTemp
  let byte12 := if hd &&& 1 ≠ 0 then 0 ||| HALF_DEGREE else clearBits 0 HALF_DEGREE
  let tempValue := pyTruncNat TEMP_MAX - hd / 2
  let byte7 := (0x07 &&& 0xF0) ||| tempValue
  let fanValue :=
    match fanMode with
    | FM.high => FAN_HIGH
    | FM.medium => FAN_MED
    | FM.low => FAN_LOW
    | _ => FAN_AUTO
  let byte8 := (0x40 &&& 0xF8) ||| fanValue
  let byte8 :=
    if swingMode = SM.vertical then byte8 ||| VSWING_MASK
    else clearBits byte8 VSWING_MASK
  let bytes :=
    [FIXED_BYTE0, FIXED_BYTE1, FIXED_BYTE2, FIXED_BYTE3, 0, byte5, byte6, byte7,
     byte8, 0, 0, 0, byte12]
  bytes ++ [bytes.sum % 256]

/-- `TCLProtocol._encode_to_pulses`: header, 14 bytes LSB-first, footer mark
plus explicit trailing gap. -/
def encodeToPulses (rs : List ℕ) : List ℕ :=
  [HEADER_MARK, HEADER_SPACE] ++
    encodeBytesLSB BIT_MARK ONE_SPACE ZERO_SPACE rs ++ [BIT_MARK, GAP]

/-- `TCLProtocol.generate_ir_code` (the protocol is stateless). -/
def generateIrCode (hvacMode : HM) (targetTemp : ℚ) (fanMode : FM)
    (swingMode : SM) : List ℕ :=
  encodeToPulses (frame hvacMode targetTemp fanMode swingMode)

end TCL

/-! ## Whirlpool (`whirlpool.py`) -/

namespace Whirlpool

def MODEL_DG11J1_3A : ℕ := 0
def MODEL_DG11J1_91 : ℕ := 1
def TEMP_MIN_DG11J1_3A : ℚ := 18
def TEMP_MAX_DG11J1_3A : ℚ := 32
def TEMP_MIN_DG11J1_91 : ℚ := 16
def TEMP_MAX_DG11J1_91 : ℚ := 30
def STATE_LENGTH : ℕ := 21
def MODE_HEAT : ℕ := 0
def MODE_AUTO : ℕ := 1
def MODE_COOL : ℕ := 2
def MODE_DRY : ℕ := 3
def MODE_FAN : ℕ := 4
def FAN_AUTO : ℕ := 0
def FAN_HIGH : ℕ := 1
def FAN_MED : ℕ := 2
def FAN_LOW : ℕ := 3
def SWING_MASK : ℕ := 0x80
def POWER_MASK : ℕ := 0x04
def FIXED_BYTE0 : ℕ := 0x83
def FIXED_BYTE1 : ℕ := 0x06
def FIXED_BYTE6 : ℕ := 0x80
def FIXED_BYTE18_DG11J191 : ℕ := 0x08
def HEADER_MARK : ℕ := 9000
def HEADER_SPACE : ℕ := 4494
def BIT_MARK : ℕ := 572
def ONE_SPACE : ℕ := 1659
def ZERO_SPACE : ℕ := 553
def GAP : ℕ := 7960

/-- Mutable attributes of `WhirlpoolProtocol` that can influence the output.
(`last_transmit_time` is wall-clock bookkeeping that
is written but never read back into a frame; it is omitted.) -/
structure State where
  model : ℕ
  poweredOnAssumed : Bool
  swingPending : Bool
  deriving DecidableEq, Repr

/-- State of a freshly constructed `WhirlpoolProtocol` with the default
`dg11j1_91` model. -/
def fresh : State :=
  { model := MODEL_DG11J1_91, poweredOnAssumed := false, swingPending := false }

/-- `temperature_min` property. -/
def temperatureMin (s : State) : ℚ :=
  if s.model = MODEL_DG11J1_3A then TEMP_MIN_DG11J1_3A else TEMP_MIN_DG11J1_91

/-- `temperature_max` property. -/
def temperatureMax (s : State) : ℚ :=
  if s.model = MODEL_DG11J1_3A then TEMP_MAX_DG11J1_3A else TEMP_MAX_DG11J1_91

/-- `powered_on != self.powered_on_assumed` of `generate_ir_code`. -/
def powerToggles (hvacMode : HM) (s : State) : Bool :=
  let poweredOn : Bool := hvacMode ≠ HM.off
  poweredOn ≠ s.poweredOnAssumed

/-- Byte 2 of the frame: power-toggle bit `0x04`, fan bits, swing bit `0x80`. -/
def byte2Of (hvacMode : HM) (fanMode : FM) (swingMode : SM) (s : State) : ℕ :=
  let byte2a := if powerToggles hvacMode s then 4 else 0
  let byte2b :=
    if hvacMode ≠ HM.off then
      let fanValue :=
        match fanMode with
        | FM.high => FAN_HIGH
        | FM.medium => FAN_MED
        | FM.low => FAN_LOW
        | _ => FAN_AUTO
      byte2a ||| fanValue
    else byte2a
  if swingMode = SM.vertical ∧ s.swingPending then byte2b ||| SWING_MASK
  else byte2b

/-- The 21-byte `remote_state` built by `WhirlpoolProtocol.generate_ir_code`. -/
def frame (hvacMode : HM) (targetTemp : ℚ) (fanMode : FM) (swingMode : SM)
    (s : State) : List ℕ :=
  let toggle : Bool := powerToggles hvacMode s
  let poweredOn : Bool := hvacMode ≠ HM.off
  let byte15a := if toggle then 1 else 0
  let modePair : ℕ × ℕ :=
    if poweredOn then
      match hvacMode with
      | HM.auto | HM.heatCool => (MODE_AUTO, 0x17)
      | HM.heat => (MODE_HEAT, 6)
      | HM.cool => (MODE_COOL, 6)
      | HM.dry => (MODE_DRY, 6)
      | HM.fanOnly => (MODE_FAN, 6)
      | _ => (0, byte15a)
    else (0, byte15a)
  let byte3a := modePair.1
  let byte15 := modePair.2
  let byte3 :=
    if hvacMode ≠ HM.off then
      let tempVal := max (temperatureMin s) (min (temperatureMax s) targetTemp)
      let tempOffset := (pyTrunc tempVal - pyTrunc (temperatureMin s)).toNat
      byte3a ||| (tempOffset <<< 4)
    else byte3a
  let byte2 := byte2Of hvacMode fanMode swingMode s
  let byte8 :=
    if swingMode = SM.vertical ∧ s.swingPending then 0x40 else 0
  let byte18 := if s.model = MODEL_DG11J1_91 then FIXED_BYTE18_DG11J191 else 0
  let f :=
    [FIXED_BYTE0, FIXED_BYTE1, byte2, byte3, 0, 0, FIXED_BYTE6, 0, byte8, 0, 0,
     0, 0, 0, 0, byte15, 0, 0, byte18, 0, 0]
  let checksum13 := (List.range 11).foldl (fun a i => a ^^^ f.getD (2 + i) 0) 0
  let f := f.set 13 checksum13
  let checksum20 := (List.range 6).foldl (fun a i => a ^^^ f.getD (14 + i) 0) 0
  f.set 20 checksum20

/-- `WhirlpoolProtocol._encode_to_pulses`: header, 21 bytes LSB-first with a
`[mark, gap]` divider after bytes 6 and 14, footer mark. -/
def encodeToPulses (rs : List ℕ) : List ℕ :=
  [HEADER_MARK, HEADER_SPACE] ++
    (List.range rs.length).flatMap (fun i =>
      encodeByteLSB BIT_MARK ONE_SPACE ZERO_SPACE (rs.getD i 0) ++
        (if i + 1 = 6 ∨ i + 1 = 14 then [BIT_MARK, GAP] else [])) ++
    [BIT_MARK]

/-- `WhirlpoolProtocol.generate_ir_code`: pulse list and updated state. -/
def generateIrCode (hvacMode : HM) (targetTemp : ℚ) (fanMode : FM) (swingMode : SM)
    (s : State) : List ℕ × State :=
  let poweredOn : Bool := hvacMode ≠ HM.off
  let toggle : Bool := poweredOn ≠ s.poweredOnAssumed
  (encodeToPulses (frame hvacMode targetTemp fanMode swingMode s),
   { s with
     poweredOnAssumed := if toggle then poweredOn else s.poweredOnAssumed,
     swingPending := false })

end Whirlpool

example :
    (Whirlpool.frame HM.cool 24 FM.auto SM.off Whirlpool.fresh).getD 2 0 = 4 ∧
    (Whirlpool.frame HM.cool 24 FM.auto SM.off
      ((Whirlpool.generateIrCode HM.cool 24 FM.auto SM.off Whirlpool.fresh).2)).getD 2 0 = 0 :=
  by decide

/-! ## Daikin (`daikin.py`) -/

namespace Daikin

def TEMP_MIN : ℚ := 10
def TEMP_MAX : ℚ := 30
def DAIKIN_MODE_AUTO : ℕ := 0x00
def DAIKIN_MODE_COOL : ℕ := 0x30
def DAIKIN_MODE_HEAT : ℕ := 0x40
def DAIKIN_MODE_DRY : ℕ := 0x20
def DAIKIN_MODE_FAN : ℕ := 0x60
def DAIKIN_MODE_OFF : ℕ := 0x00
def DAIKIN_MODE_ON : ℕ := 0x01
def DAIKIN_FAN_AUTO : ℕ := 0xA0
def DAIKIN_FAN_SILENT : ℕ := 0xB0
def DAIKIN_FAN_1 : ℕ := 0x30
def DAIKIN_FAN_3 : ℕ := 0x50
def DAIKIN_FAN_5 : ℕ := 0x70
def HEADER_MARK : ℕ := 3360
def HEADER_SPACE : ℕ := 1760
def BIT_MARK : ℕ := 520
def ONE_SPACE : ℕ := 1370
def ZERO_SPACE : ℕ := 360
def MESSAGE_SPACE : ℕ := 32300

/-- The 38-entry initial `remote_state` literal of `generate_ir_code`. -/
def baseState : List ℕ :=
  [0x11, 0xDA, 0x27, 0x00, 0xC5, 0x00, 0x00, 0xD7,
   0x11, 0xDA, 0x27, 0x00, 0x42, 0x49, 0x05, 0xA2,
   0x11, 0xDA, 0x27, 0x00,
   0x00, 0x00, 0x00, 0x00, 0x00, 0x00, 0x00, 0x00, 0x00, 0x00,
   0x06, 0x60, 0x00, 0x00, 0xC0, 0x00, 0x00, 0x00]

/-- `DaikinProtocol._operation_mode`. -/
def operationMode (hvacMode : HM) : ℕ :=
  if hvacMode = HM.off then DAIKIN_MODE_OFF
  else
    match hvacMode with
    | HM.cool => DAIKIN_MODE_ON ||| DAIKIN_MODE_COOL
    | HM.heat => DAIKIN_MODE_ON ||| DAIKIN_MODE_HEAT
    | HM.dry => DAIKIN_MODE_ON ||| DAIKIN_MODE_DRY
    | HM.auto | HM.heatCool => DAIKIN_MODE_ON ||| DAIKIN_MODE_AUTO
    | HM.fanOnly => DAIKIN_MODE_ON ||| DAIKIN_MODE_FAN
    | _ => DAIKIN_MODE_ON ||| DAIKIN_MODE_AUTO

/-- `DaikinProtocol._temperature_value`. -/
def temperatureValue (hvacMode : HM) (targetTemp : ℚ) : ℕ :=
  if hvacMode = HM.fanOnly then 0x32
  else if hvacMode = HM.dry then 0xC0
  else
    let tempVal := max TEMP_MIN (min TEMP_MAX targetTemp)
    pyTruncNat (tempVal * 2)

/-- `DaikinProtocol._fan_speed_value` (only the final computation is live in
the source; the earlier assignments it makes are dead and overwritten). -/
def fanSpeedValue (fanMode : FM) (swingMode : SM) : ℕ :=
  let fanByte :=
    match fanMode with
    | FM.quiet => DAIKIN_FAN_SILENT
    | FM.low => DAIKIN_FAN_1
    | FM.medium => DAIKIN_FAN_3
    | FM.high => DAIKIN_FAN_5
    | _ => DAIKIN_FAN_AUTO
  let result := fanByte <<< 8
  match swingMode with
  | SM.vertical => result ||| 0x0F00
  | SM.horizontal => result ||| 0x000F
  | SM.both => result ||| 0x0F0F
  | _ => result

/-- The complete `remote_state` of `DaikinProtocol.generate_ir_code` after all
writes (byte 21 mode, byte 22 temperature, bytes 24-25 fan/swing, byte 35
checksum over bytes 16-34). -/
def frame (hvacMode : HM) (targetTemp : ℚ) (fanMode : FM) (swingMode : SM) :
    List ℕ :=
  let fanSpeedVal := fanSpeedValue fanMode swingMode
  let f := baseState
  let f := f.set 21 (operationMode hvacMode)
  let f := f.set 22 (temperatureValue hvacMode targetTemp)
  let f := f.set 24 ((fanSpeedVal >>> 8) &&& 0xFF)
  let f := f.set 25 (fanSpeedVal &&& 0xFF)
  let checksum := (List.range 19).foldl (fun a i => (a + f.getD (16 + i) 0) &&& 0xFF) 0
  f.set 35 checksum

/-- `DaikinProtocol._encode_to_pulses`: three headed blocks (bytes 0-7, 8-15,
16-34; the LSB-first bit order of the mask list), separated by
`MESSAGE_SPACE`, final mark. -/
def encodeToPulses (rs : List ℕ) : List ℕ :=
  [HEADER_MARK, HEADER_SPACE] ++
    encodeBytesLSB BIT_MARK ONE_SPACE ZERO_SPACE (rs.take 8) ++
    [BIT_MARK, MESSAGE_SPACE] ++
  [HEADER_MARK, HEADER_SPACE] ++
    encodeBytesLSB BIT_MARK ONE_SPACE ZERO_SPACE ((rs.drop 8).take 8) ++
    [BIT_MARK, MESSAGE_SPACE] ++
  [HEADER_MARK, HEADER_SPACE] ++
    encodeBytesLSB BIT_MARK ONE_SPACE ZERO_SPACE ((rs.drop 16).take 19) ++
    [BIT_MARK]

/-- `DaikinProtocol.generate_ir_code` (the attributes `swing_vertical` and
`swing_horizontal` set in `__init__` are never read, so the protocol is
effectively stateless). -/
def generateIrCode (hvacMode : HM) (targetTemp : ℚ) (fanMode : FM)
    (swingMode : SM) : List ℕ :=
  encodeToPulses (frame hvacMode targetTemp fanMode swingMode)

end Daikin

/-! ## Mitsubishi (`mitsubishi.py`) -/

namespace Mitsubishi

def TEMP_MIN : ℚ := 16
def TEMP_MAX : ℚ := 31
def MITSUBISHI_OFF : ℕ := 0x00
def POWER_ON : ℕ := 0x20
def MODE_AUTO : ℕ := 0x20
def MODE_COOL : ℕ := 0x18
def MODE_DRY : ℕ := 0x10
def MODE_FAN_ONLY : ℕ := 0x38
def MODE_HEAT : ℕ := 0x08
def MODE_A_HEAT : ℕ := 0x00
def MODE_A_DRY : ℕ := 0x02
def MODE_A_COOL : ℕ := 0x06
def MODE_A_AUTO : ℕ := 0x06
def WIDE_VANE_SWING : ℕ := 0xC0
def FAN_AUTO : ℕ := 0x00
def VERTICAL_VANE_SWING : ℕ := 0x38
def OTHERWISE : ℕ := 0x40
def BIT_MARK : ℕ := 430
def ONE_SPACE : ℕ := 1250
def ZERO_SPACE : ℕ := 390
def HEADER_MARK : ℕ := 3500
def HEADER_SPACE : ℕ := 1700
def MIN_GAP : ℕ := 17500
def FAN_MODE_3L : ℕ := 0

/-- Output-relevant mutable attributes of `MitsubishiProtocol`
(`swing_active`, `swing_horizontal`, `swing_vertical` are written in
`__init__` but never read). -/
structure State where
  fanModeType : ℕ
  defaultHorizontalDirection : ℕ
  defaultVerticalDirection : ℕ
  deriving DecidableEq, Repr

def fresh : State :=
  { fanModeType := FAN_MODE_3L,
    defaultHorizontalDirection := 0x30,
    defaultVerticalDirection := 0x00 }

/-- `MitsubishiProtocol._fan_mode_to_speed`. -/
def fanModeToSpeed (fanMode : FM) (s : State) : ℕ :=
  match fanMode with
  | FM.auto => FAN_AUTO
  | FM.low => 1
  | FM.medium => if s.fanModeType = FAN_MODE_3L then 2 else 3
  | FM.high => if s.fanModeType = FAN_MODE_3L then 3 else 4
  | FM.middle => 2
  | FM.quiet => 5
  | _ => FAN_AUTO

/-- The 18-byte `remote_state` of `MitsubishiProtocol.generate_ir_code`. -/
def frame (hvacMode : HM) (targetTemp : ℚ) (fanMode : FM) (swingMode : SM)
    (s : State) : List ℕ :=
  let swingHorizontal := swingMode = SM.horizontal ∨ swingMode = SM.both
  let swingVertical := swingMode = SM.vertical ∨ swingMode = SM.both
  let byte5 := if hvacMode = HM.off then MITSUBISHI_OFF else POWER_ON
  let modePair : ℕ × ℕ :=
    match hvacMode with
    | HM.heat => (MODE_HEAT, MODE_A_HEAT)
    | HM.dry => (MODE_DRY, MODE_A_DRY)
    | HM.cool => (MODE_COOL, MODE_A_COOL)
    | HM.fanOnly => (MODE_FAN_ONLY, MODE_A_AUTO)
    | HM.auto | HM.heatCool => (MODE_AUTO, MODE_A_AUTO)
    | _ => (MODE_COOL, MODE_A_COOL)
  let byte6 := modePair.1
  let byte7 :=
    if hvacMode = HM.dry then 24 - 16
    else pyTruncNat (max TEMP_MIN (min TEMP_MAX targetTemp)) - 16
  let byte8 :=
    if swingHorizontal then modePair.2 ||| WIDE_VANE_SWING
    else modePair.2 ||| s.defaultHorizontalDirection
  let fanSpeed := fanModeToSpeed fanMode s
  let byte9 :=
    if swingVertical then fanSpeed ||| VERTICAL_VANE_SWING ||| OTHERWISE
    else fanSpeed ||| s.defaultVerticalDirection ||| OTHERWISE
  let bytes :=
    [0x23, 0xCB, 0x26, 0x01, 0x00, byte5, byte6, byte7, byte8, byte9,
     0x00, 0x00, 0x00, 0x00, 0x00, 0x00, 0x00]
  bytes ++ [bytes.foldl (fun a b => (a + b) &&& 0xFF) 0]

/-- `MitsubishiProtocol._encode_to_pulses`: the frame twice (LSB-first), a
`[mark, MIN_GAP]` after the first copy, final mark. -/
def encodeToPulses (rs : List ℕ) : List ℕ :=
  (List.range 2).flatMap (fun rep =>
    [HEADER_MARK, HEADER_SPACE] ++
      encodeBytesLSB BIT_MARK ONE_SPACE ZERO_SPACE rs ++
      (if rep = 0 then [BIT_MARK, MIN_GAP] else [])) ++
  [BIT_MARK]

/-- `MitsubishiProtocol.generate_ir_code` (state is read-only here). -/
def generateIrCode (hvacMode : HM) (targetTemp : ℚ) (fanMode : FM)
    (swingMode : SM) (s : State) : List ℕ :=
  encodeToPulses (frame hvacMode targetTemp fanMode swingMode s)

end Mitsubishi

/-! ## Midea (`midea.py`) -/

namespace Midea

def TEMPC_MIN : ℚ := 17
def TEMPC_MAX : ℚ := 30
def TEMPF_MIN : ℚ := 62
def TEMPF_MAX : ℚ := 86
def MIDEA_TYPE_CONTROL : ℕ := 0x82
def MIDEA_TYPE_SPECIAL : ℕ := 0x84
def VSWING_TOGGLE : ℕ := 2
def MODE_COOL : ℕ := 0
def MODE_DRY : ℕ := 1
def MODE_AUTO : ℕ := 2
def MODE_HEAT : ℕ := 3
def MODE_FAN_ONLY : ℕ := 4
def FAN_AUTO : ℕ := 0
def FAN_LOW : ℕ := 1
def FAN_MEDIUM : ℕ := 2
def FAN_HIGH : ℕ := 3
def BIT_MARK : ℕ := 560
def ZERO_SPACE : ℕ := 560
def ONE_SPACE : ℕ := 1680
def HEADER_MARK : ℕ := 4500
def HEADER_SPACE : ℕ := 4500

/-- Mutable attributes of `MideaProtocol` that can influence the output
(`boost_pending` is written in `__init__` only). -/
structure State where
  swingPending : Bool
  fahrenheitMode : Bool
  deriving DecidableEq, Repr

def fresh : State := { swingPending := false, fahrenheitMode := false }

/-- `MideaProtocol._hvac_mode_to_midea`. -/
def hvacModeToMidea (hvacMode : HM) : ℕ :=
  match hvacMode with
  | HM.cool => MODE_COOL
  | HM.dry => MODE_DRY
  | HM.heat => MODE_HEAT
  | HM.fanOnly => MODE_FAN_ONLY
  | _ => MODE_AUTO

/-- `MideaProtocol._fan_mode_to_midea`. -/
def fanModeToMidea (fanMode : FM) : ℕ :=
  match fanMode with
  | FM.low => FAN_LOW
  | FM.medium => FAN_MEDIUM
  | FM.high => FAN_HIGH
  | _ => FAN_AUTO

/-- `MideaProtocol._celsius_to_fahrenheit`. -/
def celsiusToFahrenheit (celsius : ℚ) : ℚ := celsius * 9 / 5 + 32

/-- `MideaProtocol._generate_control_data`: the 5 control bytes. -/
def controlData (hvacMode : HM) (targetTemp : ℚ) (fanMode : FM) (s : State) :
    List ℕ :=
  let modeValue := hvacModeToMidea hvacMode
  let byte1a := if hvacMode ≠ HM.off then 0x80 else 0
  let byte1b := byte1a ||| modeValue
  let fanValue := fanModeToMidea fanMode
  let byte1c := byte1b ||| (fanValue <<< 3)
  let byte1 :=
    if fanMode = FM.auto ∧
        (modeValue = MODE_COOL ∨ modeValue = MODE_HEAT ∨ modeValue = MODE_FAN_ONLY) then
      byte1c ||| 0x20
    else byte1c
  let byte2a :=
    if s.fahrenheitMode then
      let tempF := celsiusToFahrenheit targetTemp
      let tempF := max TEMPF_MIN (min TEMPF_MAX tempF)
      let tempVal := (pyRound tempF - 62).toNat
      0x20 ||| tempVal
    else
      let tempC := max TEMPC_MIN (min TEMPC_MAX targetTemp)
      let tempVal := (pyRound tempC - 17).toNat
      tempVal
  let byte2 := if hvacMode = HM.fanOnly then byte2a ||| 0x1F else byte2a
  let pre := [MIDEA_TYPE_CONTROL, byte1, byte2, 0xFF, 0xFF]
  let checksum := pre.foldl (fun a b => a ^^^ b) 0
  [MIDEA_TYPE_CONTROL, byte1, byte2, 0xFF, checksum]

/-- `MideaProtocol._generate_swing_toggle`'s 5 special bytes. -/
def swingToggleData : List ℕ :=
  let pre := [MIDEA_TYPE_SPECIAL, VSWING_TOGGLE, 0xFF, 0xFF, 0xFF]
  let checksum := pre.foldl (fun a b => a ^^^ b) 0
  [MIDEA_TYPE_SPECIAL, VSWING_TOGGLE, 0xFF, 0xFF, checksum]

/-- `MideaProtocol._encode_midea_data`: header, 5 bytes LSB-first, trailer mark. -/
def encodeMideaData (data : List ℕ) : List ℕ :=
  [HEADER_MARK, HEADER_SPACE] ++
    encodeBytesLSB BIT_MARK ONE_SPACE ZERO_SPACE data ++ [BIT_MARK]

/-- `MideaProtocol.generate_ir_code`: pulse list and updated state. -/
def generateIrCode (hvacMode : HM) (targetTemp : ℚ) (fanMode : FM)
    (swingMode : SM) (s : State) : List ℕ × State :=
  if swingMode = SM.vertical ∧ ¬s.swingPending then
    (encodeMideaData swingToggleData, { s with swingPending := true })
  else
    (encodeMideaData (controlData hvacMode targetTemp fanMode s),
     { s with swingPending := false })

end Midea

/-! ## General / NEC (`general.py`) -/

namespace General

def TEMP_MIN : ℚ := 16
def TEMP_MAX : ℚ := 30
def HEADER_MARK : ℕ := 9000
def HEADER_SPACE : ℕ := 4500
def BIT_MARK : ℕ := 560
def ONE_SPACE : ℕ := 1690
def ZERO_SPACE : ℕ := 560
def NEC_ADDRESS : ℕ := 0x00
def MODE_COOL : ℕ := 0x01
def MODE_HEAT : ℕ := 0x02
def MODE_DRY : ℕ := 0x03
def MODE_FAN : ℕ := 0x04
def MODE_AUTO : ℕ := 0x05
def FAN_AUTO : ℕ := 0x00
def FAN_LOW : ℕ := 0x01
def FAN_MEDIUM : ℕ := 0x02
def FAN_HIGH : ℕ := 0x03

/-- `GeneralProtocol._get_mode_code` with the default empty custom mappings
(the registry constructs `GeneralProtocol()` without `custom_mappings`). -/
def getModeCode (hvacMode : HM) : ℕ :=
  match hvacMode with
  | HM.cool => MODE_COOL
  | HM.heat => MODE_HEAT
  | HM.dry => MODE_DRY
  | HM.fanOnly => MODE_FAN
  | HM.auto | HM.heatCool => MODE_AUTO
  | _ => 0x00

/-- `GeneralProtocol._get_fan_code` with the default empty custom mappings. -/
def getFanCode (fanMode : FM) : ℕ :=
  match fanMode with
  | FM.low => FAN_LOW
  | FM.medium => FAN_MEDIUM
  | FM.high => FAN_HIGH
  | _ => FAN_AUTO

/-- The 4-byte NEC frame of `GeneralProtocol.generate_ir_code`.  The computed
fan code of the source is dead: only temperature and mode enter
`command_byte`. -/
def necFrame (hvacMode : HM) (targetTemp : ℚ) (fanMode : FM) : List ℕ :=
  let tempVal := max TEMP_MIN (min TEMP_MAX targetTemp)
  let tempCode := pyTruncNat tempVal - 16
  let modeCode := getModeCode hvacMode
  let fanCode := getFanCode fanMode
  let _ := fanCode
  let commandByte := (tempCode <<< 4) ||| (modeCode &&& 0x0F)
  [NEC_ADDRESS, invByte NEC_ADDRESS, commandByte, invByte commandByte]

/-- `GeneralProtocol._encode_nec_frame`. -/
def encodeNecFrame (fr : List ℕ) : List ℕ :=
  [HEADER_MARK, HEADER_SPACE] ++
    encodeBytesLSB BIT_MARK ONE_SPACE ZERO_SPACE fr ++ [BIT_MARK]

/-- `GeneralProtocol.generate_ir_code` (stateless). -/
def generateIrCode (hvacMode : HM) (targetTemp : ℚ) (fanMode : FM)
    (swingMode : SM) : List ℕ :=
  encodeNecFrame (necFrame hvacMode targetTemp fanMode)

end General

/-! ## Whynter (`whynter.py`) -/

namespace Whynter

def TEMP_MIN : ℚ := 16
def TEMP_MAX : ℚ := 32
def COMMAND_CODE : ℕ := 0x12 <<< 24
def POWER_OFF : ℕ := 0
def POWER_ON : ℕ := 1 <<< 8
def MODE_FAN : ℕ := 0b0001 <<< 16
def MODE_DRY : ℕ := 0b0010 <<< 16
def MODE_HEAT : ℕ := 0b0100 <<< 16
def MODE_COOL : ℕ := 0b1000 <<< 16
def FAN_HIGH : ℕ := 0b001 <<< 20
def FAN_MED : ℕ := 0b010 <<< 20
def FAN_LOW : ℕ := 0b100 <<< 20
def UNIT_CELSIUS : ℕ := 0 <<< 10
def UNIT_FAHRENHEIT : ℕ := 1 <<< 10
def TEMP_OFFSET_C : ℕ := 16
def headerHigh : ℕ := 8000
def headerLow : ℕ := 4000
def bitHigh : ℕ := 600
def bitOneLow : ℕ := 1600
def bitZeroLow : ℕ := 550

/-- Mutable attributes of `WhynterProtocol` (`last_hvac_mode` is written in
`__init__` only and never read or updated). -/
structure State where
  modeBefore : HM
  fahrenheit : Bool
  deriving DecidableEq, Repr

def fresh : State := { modeBefore := HM.off, fahrenheit := false }

/-- `WhynterProtocol._reverse_bits`. -/
def reverseBits (value : ℕ) : ℕ :=
  let v := value &&& 0xFF
  (List.range 8).foldl (fun result i => (result <<< 1) ||| ((v >>> i) &&& 1)) 0

/-- The 32-bit word of `WhynterProtocol.generate_ir_code`. -/
def finalWord (hvacMode : HM) (targetTemp : ℚ) (fanMode : FM) (s : State) : ℕ :=
  let remoteState := COMMAND_CODE
  let remoteState :=
    if hvacMode = HM.off then remoteState ||| POWER_OFF
    else
      let remoteState := remoteState ||| POWER_ON
      match hvacMode with
      | HM.fanOnly => remoteState ||| MODE_FAN
      | HM.dry => remoteState ||| MODE_DRY
      | HM.heat => remoteState ||| MODE_HEAT
      | HM.cool | HM.heatCool | HM.auto => remoteState ||| MODE_COOL
      | _ => remoteState ||| MODE_COOL
  let remoteState :=
    if hvacMode ≠ HM.off then
      match fanMode with
      | FM.high => remoteState ||| FAN_HIGH
      | FM.medium => remoteState ||| FAN_MED
      | FM.low => remoteState ||| FAN_LOW
      | _ => remoteState ||| FAN_HIGH
    else remoteState ||| FAN_HIGH
  if ¬(hvacMode = HM.off ∨ hvacMode = HM.fanOnly) then
    let tempVal : ℤ := pyTrunc (max TEMP_MIN (min TEMP_MAX targetTemp))
    if s.fahrenheit then
      let tempF : ℤ := ⌊(tempVal : ℚ) * 9 / 5 + 32⌋
      let tempF : ℤ := max 61 (min 89 tempF)
      let tempByte := reverseBits tempF.toNat
      (remoteState ||| UNIT_FAHRENHEIT) ||| tempByte
    else
      let tempC := (tempVal - 16).toNat
      let tempByte := reverseBits tempC
      (remoteState ||| UNIT_CELSIUS) ||| tempByte
  else
    let defaultTemp := 24 - TEMP_OFFSET_C
    let tempByte := reverseBits defaultTemp
    (remoteState ||| UNIT_CELSIUS) ||| tempByte

/-- `WhynterProtocol._encode_to_pulses`: header, 32 bits MSB-first, final mark. -/
def encodeToPulses (value : ℕ) : List ℕ :=
  [headerHigh, headerLow] ++
    encodeWordMSB bitHigh bitOneLow bitZeroLow 32 value ++ [bitHigh]

/-- `WhynterProtocol.generate_ir_code`: pulse list and updated state. -/
def generateIrCode (hvacMode : HM) (targetTemp : ℚ) (fanMode : FM)
    (swingMode : SM) (s : State) : List ℕ × State :=
  (encodeToPulses (finalWord hvacMode targetTemp fanMode s),
   { s with modeBefore := hvacMode })

end Whynter

/-! ## Yashima (`yashima.py`) -/

namespace Yashima

def TEMP_MIN : ℚ := 16
def TEMP_MAX : ℚ := 30
def STATE_LENGTH : ℕ := 9
def BASE_BYTE0 : ℕ := 0b1110
def MODE_HEAT_BYTE0 : ℕ := 0b00100000
def MODE_DRY_BYTE0 : ℕ := 0b01100000
def MODE_COOL_BYTE0 : ℕ := 0b11100000
def MODE_FAN_BYTE0 : ℕ := 0b10100000
def MODE_AUTO_BYTE0 : ℕ := 0b11100000
def MODE_OFF_BYTE0 : ℕ := 0b11110000
def BASE_BYTE1 : ℕ := 0b11
def TEMP_MAP_BYTE1 : List ℕ :=
  [0b01100100, 0b10100100, 0b00100100, 0b11000100, 0b01000100,
   0b10000100, 0b00000100, 0b11111000, 0b01111000, 0b10111000,
   0b00111000, 0b11011000, 0b01011000, 0b10011000, 0b00011000]
def BASE_BYTE2 : ℕ := 0b111111
def FAN_AUTO_BYTE2 : ℕ := 0b11000000
def FAN_LOW_BYTE2 : ℕ := 0b00000000
def FAN_MEDIUM_BYTE2 : ℕ := 0b10000000
def FAN_HIGH_BYTE2 : ℕ := 0b01000000
def BASE_BYTE3 : ℕ := 0b11111111
def BASE_BYTE4 : ℕ := 0b11
def BASE_BYTE5 : ℕ := 0b11111
def MODE_HEAT_BYTE5 : ℕ := 0b00000000
def MODE_DRY_BYTE5 : ℕ := 0b00000000
def MODE_FAN_BYTE5 : ℕ := 0b00000000
def MODE_AUTO_BYTE5 : ℕ := 0b00000000
def MODE_COOL_BYTE5 : ℕ := 0b10000000
def MODE_OFF_BYTE5 : ℕ := 0b10000000
def HEADER_MARK : ℕ := 9035
def HEADER_SPACE : ℕ := 4517
def BIT_MARK : ℕ := 667
def ONE_SPACE : ℕ := 517
def ZERO_SPACE : ℕ := 1543
def GAP : ℕ := 4517

/-- Mode bits for bytes 0 and 5.  Note the source's branch chain: plain
`HVACMode.AUTO` is not matched (only `HEAT_COOL` is), so `auto` and any
unknown mode fall into the `else` branch of the source and get the OFF bits. -/
def modeBytes (hvacMode : HM) : ℕ × ℕ :=
  match hvacMode with
  | HM.off => (MODE_OFF_BYTE0, MODE_OFF_BYTE5)
  | HM.heat => (MODE_HEAT_BYTE0, MODE_HEAT_BYTE5)
  | HM.cool => (MODE_COOL_BYTE0, MODE_COOL_BYTE5)
  | HM.heatCool => (MODE_AUTO_BYTE0, MODE_AUTO_BYTE5)
  | HM.dry => (MODE_DRY_BYTE0, MODE_DRY_BYTE5)
  | HM.fanOnly => (MODE_FAN_BYTE0, MODE_FAN_BYTE5)
  | _ => (MODE_OFF_BYTE0, MODE_OFF_BYTE5)

/-- The 9-byte `remote_state` of `YashimaProtocol.generate_ir_code`. -/
def frame (hvacMode : HM) (targetTemp : ℚ) (fanMode : FM) : List ℕ :=
  let mb := modeBytes hvacMode
  let byte0 := BASE_BYTE0 ||| mb.1
  let byte5 := BASE_BYTE5 ||| mb.2
  let byte2 :=
    if hvacMode ≠ HM.off then
      match fanMode with
      | FM.low => BASE_BYTE2 ||| FAN_LOW_BYTE2
      | FM.medium => BASE_BYTE2 ||| FAN_MEDIUM_BYTE2
      | FM.high => BASE_BYTE2 ||| FAN_HIGH_BYTE2
      | _ => BASE_BYTE2 ||| FAN_AUTO_BYTE2
    else BASE_BYTE2 ||| FAN_AUTO_BYTE2
  let byte1 :=
    if hvacMode ≠ HM.off then
      let safeTemp := pyTruncNat (max TEMP_MIN (min TEMP_MAX targetTemp))
      let tempIndex := safeTemp - 16
      if tempIndex < TEMP_MAP_BYTE1.length then
        BASE_BYTE1 ||| TEMP_MAP_BYTE1.getD tempIndex 0
      else BASE_BYTE1 ||| TEMP_MAP_BYTE1.getD 8 0
    else BASE_BYTE1 ||| TEMP_MAP_BYTE1.getD 8 0
  [byte0, byte1, byte2, BASE_BYTE3, BASE_BYTE4, byte5, 0b11111111, 0b11111111,
   0b11001111]

/-- `YashimaProtocol._encode_to_pulses`: header, 9 bytes MSB-first (note the
source's ONE_SPACE is shorter than its ZERO_SPACE), footer mark plus gap. -/
def encodeToPulses (rs : List ℕ) : List ℕ :=
  [HEADER_MARK, HEADER_SPACE] ++
    encodeBytesMSB BIT_MARK ONE_SPACE ZERO_SPACE rs ++ [BIT_MARK, GAP]

/-- `YashimaProtocol.generate_ir_code` (the `supports_cool` / `supports_heat`
attributes only affect the advertised mode list, not the output). -/
def generateIrCode (hvacMode : HM) (targetTemp : ℚ) (fanMode : FM)
    (swingMode : SM) : List ℕ :=
  encodeToPulses (frame hvacMode targetTemp fanMode)

end Yashima

/-! ## Gree (`gree.py`) -/

namespace Gree

def TEMP_MIN : ℚ := 16
def TEMP_MAX : ℚ := 30
def MODE_AUTO : ℕ := 0x00
def MODE_COOL : ℕ := 0x01
def MODE_HEAT : ℕ := 0x04
def MODE_DRY : ℕ := 0x02
def MODE_FAN : ℕ := 0x03
def MODE_OFF : ℕ := 0x00
def MODE_ON : ℕ := 0x08
def FAN_AUTO : ℕ := 0x00
def FAN_1 : ℕ := 0x10
def FAN_2 : ℕ := 0x20
def FAN_3 : ℕ := 0x30
def FAN_TURBO : ℕ := 0x80
def FAN_TURBO_BIT : ℕ := 0x10
def VDIR_AUTO : ℕ := 0x00
def VDIR_MANUAL : ℕ := 0x00
def VDIR_SWING : ℕ := 0x01
def HDIR_MANUAL : ℕ := 0x00
def HDIR_SWING : ℕ := 0x01
def MODEL_GENERIC : ℕ := 0
def MODEL_YAN : ℕ := 1
def MODEL_YAA : ℕ := 2
def MODEL_YAC : ℕ := 3
def MODEL_YAC1FB9 : ℕ := 4
def MODEL_YX1FF : ℕ := 5
def MODEL_YAG : ℕ := 6
def HEADER_MARK : ℕ := 9000
def HEADER_SPACE : ℕ := 4000
def BIT_MARK : ℕ := 620
def ONE_SPACE : ℕ := 1600
def ZERO_SPACE : ℕ := 540
def MESSAGE_SPACE : ℕ := 19000
def YAC1FB9_MESSAGE_SPACE : ℕ := 19980

/-- Output-relevant mutable attributes of `GreeProtocol`: model selection and
the YAN/YAA/YAC `mode_bits` accumulator (`turbo/light/health/xfan_mode` are
never read by `generate_ir_code`; the `preset` attribute tested via `hasattr`
is never assigned, so that test is always false). -/
structure State where
  model : ℕ
  modeBits : ℕ
  deriving DecidableEq, Repr

def fresh : State := { model := MODEL_GENERIC, modeBits := 0 }

/-- `GreeProtocol._operation_mode_value` (the `hasattr(self, 'preset')` branch
is dead). -/
def operationModeValue (hvacMode : HM) : ℕ :=
  if hvacMode = HM.off then MODE_OFF
  else
    match hvacMode with
    | HM.cool => MODE_ON ||| MODE_COOL
    | HM.dry => MODE_ON ||| MODE_DRY
    | HM.heat => MODE_ON ||| MODE_HEAT
    | HM.fanOnly => MODE_ON ||| MODE_FAN
    | HM.auto | HM.heatCool => MODE_ON ||| MODE_AUTO
    | _ => MODE_ON ||| MODE_AUTO

/-- `GreeProtocol._fan_speed_value`. -/
def fanSpeedValue (s : State) (fanMode : FM) : ℕ :=
  if s.model = MODEL_YX1FF then
    match fanMode with
    | FM.quiet => FAN_1
    | FM.low => FAN_2
    | FM.medium => FAN_3
    | FM.high => FAN_TURBO
    | _ => FAN_AUTO
  else
    match fanMode with
    | FM.low => FAN_1
    | FM.medium => FAN_2
    | FM.high => FAN_3
    | _ => FAN_AUTO

/-- `GreeProtocol._temperature_value`. -/
def temperatureValue (targetTemp : ℚ) : ℕ :=
  (pyRound (max TEMP_MIN (min TEMP_MAX targetTemp))).toNat

/-- `GreeProtocol._vertical_swing_value`. -/
def verticalSwingValue (swingMode : SM) : ℕ :=
  if swingMode = SM.vertical ∨ swingMode = SM.both then VDIR_SWING else VDIR_MANUAL

/-- `GreeProtocol._horizontal_swing_value`. -/
def horizontalSwingValue (swingMode : SM) : ℕ :=
  if swingMode = SM.horizontal ∨ swingMode = SM.both then HDIR_SWING else HDIR_MANUAL

/-- `GreeProtocol._configure_model_bytes` acting on the 8-byte state (bytes
0-7 as a list).  The source's `elif self.model == self.MODEL_YAG:` and the
YAG half of `elif self.model == self.MODEL_YAC or self.model == self.MODEL_YAG:`
are dead (YAG is captured by the earlier YX1FF-or-YAG branch), so only the
live branches appear. -/
def configureModelBytes (rs : List ℕ) (swingMode : SM) (fanMode : FM)
    (s : State) : List ℕ :=
  let verticalSwing := verticalSwingValue swingMode
  let horizontalSwing := horizontalSwingValue swingMode
  if s.model = MODEL_YAN then
    let rs := rs.set 2 0x20
    let rs := rs.set 3 0x50
    let rs := rs.set 4 verticalSwing
    rs.set 2 ((rs.getD 2 0 &&& 0x0F) ||| s.modeBits)
  else if s.model = MODEL_YX1FF ∨ s.model = MODEL_YAG then
    let rs := rs.set 2 0x60
    let rs := rs.set 3 0x50
    let rs := rs.set 4 verticalSwing
    let rs :=
      if s.model = MODEL_YX1FF ∧ fanMode = FM.high then
        rs.set 2 (rs.getD 2 0 ||| FAN_TURBO_BIT)
      else rs
    if s.model = MODEL_YAG ∧ (verticalSwing = VDIR_SWING ∨ horizontalSwing = HDIR_SWING) then
      rs.set 0 (rs.getD 0 0 ||| (1 <<< 6))
    else rs
  else if s.model = MODEL_YAC then
    rs.set 4 (rs.getD 4 0 ||| (horizontalSwing <<< 4))
  else if s.model = MODEL_YAA ∨ s.model = MODEL_YAC1FB9 then
    let rs := rs.set 2 0x20
    let rs := rs.set 3 0x50
    let rs := rs.set 6 0x20
    let rs :=
      if verticalSwing = VDIR_SWING then rs.set 0 (rs.getD 0 0 ||| (1 <<< 6))
      else if verticalSwing ≠ VDIR_AUTO then rs.set 5 verticalSwing
      else rs
    rs.set 2 ((rs.getD 2 0 &&& 0x0F) ||| s.modeBits)
  else
    let rs := rs.set 2 0x20
    let rs := rs.set 3 0x50
    rs.set 4 verticalSwing

/-- `GreeProtocol._calculate_checksum` (writes byte 7). -/
def calculateChecksum (s : State) (rs : List ℕ) : List ℕ :=
  if s.model = MODEL_YAN ∨ s.model = MODEL_YX1FF then
    rs.set 7 (((rs.getD 0 0 <<< 4) + (rs.getD 1 0 <<< 4) + 0xC0) &&& 0xFF)
  else if s.model = MODEL_YAG then
    let checksum :=
      (((rs.getD 0 0 &&& 0x0F) + (rs.getD 1 0 &&& 0x0F) + (rs.getD 2 0 &&& 0x0F) +
        (rs.getD 3 0 &&& 0x0F) + ((rs.getD 4 0 &&& 0xF0) >>> 4) +
        ((rs.getD 5 0 &&& 0xF0) >>> 4) + ((rs.getD 6 0 &&& 0xF0) >>> 4) +
        0x0A) &&& 0x0F) <<< 4
    rs.set 7 checksum
  else
    let checksum :=
      ((((rs.getD 0 0 &&& 0x0F) + (rs.getD 1 0 &&& 0x0F) + (rs.getD 2 0 &&& 0x0F) +
         (rs.getD 3 0 &&& 0x0F) + ((rs.getD 5 0 &&& 0xF0) >>> 4) +
         ((rs.getD 6 0 &&& 0xF0) >>> 4) + ((rs.getD 7 0 &&& 0xF0) >>> 4) +
         0x0A) &&& 0x0F) <<< 4) ||| (rs.getD 7 0 &&& 0x0F)
    rs.set 7 checksum

/-- The 8-byte `remote_state` of `GreeProtocol.generate_ir_code`. -/
def frame (hvacMode : HM) (targetTemp : ℚ) (fanMode : FM) (swingMode : SM)
    (s : State) : List ℕ :=
  let rs : List ℕ := [0x00, 0x00, 0x00, 0x00, 0x00, 0x20, 0x00, 0x00]
  let rs := rs.set 0 (fanSpeedValue s fanMode ||| operationModeValue hvacMode)
  let rs := rs.set 1 (temperatureValue targetTemp)
  let rs := configureModelBytes rs swingMode fanMode s
  calculateChecksum s rs

/-- `GreeProtocol._encode_to_pulses`: header, bytes 0-3 (LSB-first mask
order), the fixed 0-1-0 pattern, a message space (model dependent), bytes
4-7, final mark. -/
def encodeToPulses (s : State) (rs : List ℕ) : List ℕ :=
  [HEADER_MARK, HEADER_SPACE] ++
    encodeBytesLSB BIT_MARK ONE_SPACE ZERO_SPACE ((List.range 4).map (fun i => rs.getD i 0)) ++
    [BIT_MARK, ZERO_SPACE, BIT_MARK, ONE_SPACE, BIT_MARK, ZERO_SPACE] ++
    [BIT_MARK, if s.model = MODEL_YAC1FB9 then YAC1FB9_MESSAGE_SPACE else MESSAGE_SPACE] ++
    encodeBytesLSB BIT_MARK ONE_SPACE ZERO_SPACE ((List.range 4).map (fun i => rs.getD (4 + i) 0)) ++
    [BIT_MARK]

/-- `GreeProtocol.generate_ir_code` (state is read-only here). -/
def generateIrCode (hvacMode : HM) (targetTemp : ℚ) (fanMode : FM)
    (swingMode : SM) (s : State) : List ℕ :=
  encodeToPulses s (frame hvacMode targetTemp fanMode swingMode s)

end Gree

/-! ## Fujitsu General (`fujitsu.py`) -/

namespace Fujitsu

def TEMP_MIN : ℚ := 16
def TEMP_MAX : ℚ := 30
def STATE_MESSAGE_LENGTH : ℕ := 16
def UTIL_MESSAGE_LENGTH : ℕ := 7
def COMMON_BYTE0 : ℕ := 0x14
def COMMON_BYTE1 : ℕ := 0x63
def COMMON_BYTE2 : ℕ := 0x00
def COMMON_BYTE3 : ℕ := 0x10
def COMMON_BYTE4 : ℕ := 0x10
def MESSAGE_TYPE_STATE : ℕ := 0xFE
def MESSAGE_TYPE_OFF : ℕ := 0x02
def STATE_HEADER_BYTE0 : ℕ := 0x09
def STATE_HEADER_BYTE1 : ℕ := 0x30
def STATE_FOOTER_BYTE0 : ℕ := 0x20
def TEMPERATURE_NIBBLE : ℕ := 16
def POWER_ON_NIBBLE : ℕ := 17
def MODE_NIBBLE : ℕ := 19
def SWING_NIBBLE : ℕ := 20
def FAN_NIBBLE : ℕ := 21
def POWER_ON : ℕ := 0x01
def MODE_AUTO : ℕ := 0x00
def MODE_COOL : ℕ := 0x01
def MODE_DRY : ℕ := 0x02
def MODE_FAN : ℕ := 0x03
def MODE_HEAT : ℕ := 0x04
def SWING_NONE : ℕ := 0x00
def SWING_VERTICAL : ℕ := 0x01
def SWING_HORIZONTAL : ℕ := 0x02
def SWING_BOTH : ℕ := 0x03
def FAN_AUTO : ℕ := 0x00
def FAN_HIGH : ℕ := 0x01
def FAN_MEDIUM : ℕ := 0x02
def FAN_LOW : ℕ := 0x03
def FAN_SILENT : ℕ := 0x04
def HEADER_MARK : ℕ := 3300
def HEADER_SPACE : ℕ := 1600
def BIT_MARK : ℕ := 420
def ONE_SPACE : ℕ := 1200
def ZERO_SPACE : ℕ := 420
def TRL_MARK : ℕ := 420
def TRL_SPACE : ℕ := 8000

/-- Mutable attribute of `FujitsuProtocol`: the assumed power flag. -/
structure State where
  powerOn : Bool
  deriving DecidableEq, Repr

def fresh : State := { powerOn := false }

/-- `FujitsuProtocol._set_nibble`. -/
def setNibble (msg : List ℕ) (nibble value : ℕ) : List ℕ :=
  let byteIndex := nibble / 2
  let shift := if nibble % 2 = 0 then 4 else 0
  let mask := 0x0F <<< shift
  msg.set byteIndex
    (clearBits (msg.getD byteIndex 0) mask ||| ((value &&& 0x0F) <<< shift))

/-- `FujitsuProtocol._hvac_mode_to_fujitsu`. -/
def hvacModeToFujitsu (hvacMode : HM) : ℕ :=
  match hvacMode with
  | HM.cool => MODE_COOL
  | HM.heat => MODE_HEAT
  | HM.dry => MODE_DRY
  | HM.fanOnly => MODE_FAN
  | HM.auto | HM.heatCool => MODE_AUTO
  | _ => MODE_AUTO

/-- `FujitsuProtocol._fan_mode_to_fujitsu`. -/
def fanModeToFujitsu (fanMode : FM) : ℕ :=
  match fanMode with
  | FM.high => FAN_HIGH
  | FM.medium => FAN_MEDIUM
  | FM.low => FAN_LOW
  | FM.quiet => FAN_SILENT
  | _ => FAN_AUTO

/-- `FujitsuProtocol._swing_mode_to_fujitsu`. -/
def swingModeToFujitsu (swingMode : SM) : ℕ :=
  match swingMode with
  | SM.vertical => SWING_VERTICAL
  | SM.horizontal => SWING_HORIZONTAL
  | SM.both => SWING_BOTH
  | _ => SWING_NONE

/-- `FujitsuProtocol._checksum_state`: `(256 - sum(bytes 7..14)) & 0xFF`. -/
def checksumState (msg : List ℕ) : ℕ :=
  let checksum := (List.range 8).foldl (fun a i => a + msg.getD (7 + i) 0) 0
  (((256 : ℤ) - checksum) % 256).toNat

/-- The 16-byte state message of `_generate_state_message`. -/
def stateMessage (hvacMode : HM) (targetTemp : ℚ) (fanMode : FM)
    (swingMode : SM) (s : State) : List ℕ :=
  let msg : List ℕ :=
    [COMMON_BYTE0, COMMON_BYTE1, COMMON_BYTE2, COMMON_BYTE3, COMMON_BYTE4,
     MESSAGE_TYPE_STATE, STATE_HEADER_BYTE0, STATE_HEADER_BYTE1,
     0, 0, 0, 0, 0, 0, STATE_FOOTER_BYTE0, 0]
  let tempVal := max TEMP_MIN (min TEMP_MAX targetTemp)
  let tempOffset := pyTruncNat tempVal - 16
  let msg := setNibble msg TEMPERATURE_NIBBLE tempOffset
  let msg := if ¬s.powerOn then setNibble msg POWER_ON_NIBBLE POWER_ON else msg
  let msg := setNibble msg MODE_NIBBLE (hvacModeToFujitsu hvacMode)
  let msg := setNibble msg FAN_NIBBLE (fanModeToFujitsu fanMode)
  let msg := setNibble msg SWING_NIBBLE (swingModeToFujitsu swingMode)
  msg.set (STATE_MESSAGE_LENGTH - 1) (checksumState msg)

/-- The 7-byte OFF message of `_generate_off_message`. -/
def offMessage : List ℕ :=
  let msg : List ℕ :=
    [COMMON_BYTE0, COMMON_BYTE1, COMMON_BYTE2, COMMON_BYTE3, COMMON_BYTE4,
     MESSAGE_TYPE_OFF, 0]
  msg.set 6 ((255 - msg.getD 5 0) &&& 0xFF)

/-- `FujitsuProtocol._encode_to_pulses`: header, `length` bytes LSB-first,
trailer mark plus long trailer space. -/
def encodeToPulses (msg : List ℕ) (length : ℕ) : List ℕ :=
  [HEADER_MARK, HEADER_SPACE] ++
    encodeBytesLSB BIT_MARK ONE_SPACE ZERO_SPACE (msg.take length) ++
    [TRL_MARK, TRL_SPACE]

/-- `FujitsuProtocol.generate_ir_code`: pulse list and updated state. -/
def generateIrCode (hvacMode : HM) (targetTemp : ℚ) (fanMode : FM)
    (swingMode : SM) (s : State) : List ℕ × State :=
  if hvacMode = HM.off then
    (encodeToPulses offMessage UTIL_MESSAGE_LENGTH, { powerOn := false })
  else
    (encodeToPulses (stateMessage hvacMode targetTemp fanMode swingMode s)
       STATE_MESSAGE_LENGTH,
     { powerOn := true })

end Fujitsu

/-! ## Toshiba (`toshiba.py`) -/

namespace Toshiba

def MODEL_GENERIC : ℕ := 0
def MODEL_RAC_PT1411HWRU_C : ℕ := 1
def MODEL_RAC_PT1411HWRU_F : ℕ := 2
def MODEL_RAS_2819T : ℕ := 3
def TEMP_MIN_GENERIC : ℚ := 17
def TEMP_MAX_GENERIC : ℚ := 30
def TEMP_MIN_RAC_PT1411HWRU : ℚ := 16
def TEMP_MAX_RAC_PT1411HWRU : ℚ := 30
def TEMP_MIN_RAS_2819T : ℚ := 18
def TEMP_MAX_RAS_2819T : ℚ := 30
def HEADER_MARK : ℕ := 4380
def HEADER_SPACE : ℕ := 4370
def GAP_SPACE : ℕ := 5480
def PACKET_SPACE : ℕ := 10500
def BIT_MARK : ℕ := 540
def ZERO_SPACE : ℕ := 540
def ONE_SPACE : ℕ := 1620
def COMMAND_DEFAULT : ℕ := 0x01
def MODE_AUTO : ℕ := 0x00
def MODE_COOL : ℕ := 0x01
def MODE_DRY : ℕ := 0x02
def MODE_HEAT : ℕ := 0x03
def MODE_FAN_ONLY : ℕ := 0x04
def MODE_OFF : ℕ := 0x07
def FAN_SPEED_AUTO : ℕ := 0x00
def FAN_SPEED_QUIET : ℕ := 0x20
def FAN_SPEED_1 : ℕ := 0x40
def FAN_SPEED_3 : ℕ := 0x80
def FAN_SPEED_5 : ℕ := 0xc0
def RAC_PT1411HWRU_MESSAGE_HEADER0 : ℕ := 0xB2
def RAC_PT1411HWRU_MESSAGE_HEADER1 : ℕ := 0xD5
def RAC_PT1411HWRU_FLAG_FAH : ℕ := 0x01
def RAC_PT1411HWRU_FLAG_FRAC : ℕ := 0x20
def RAC_PT1411HWRU_FLAG_NEG : ℕ := 0x10
def RAC_PT1411HWRU_FLAG_MASK : ℕ := 0x0F
def RAC_PT1411HWRU_SWING_VERTICAL : List ℕ := [0xB9, 0x46, 0xF5, 0x0A, 0x04, 0xFB]
def RAC_PT1411HWRU_SWING_OFF : List ℕ := [0xB9, 0x46, 0xF5, 0x0A, 0x05, 0xFA]
def RAC_PT1411HWRU_FAN_OFF : ℕ := 0x7B
def RAC_PT1411HWRU_FAN_AUTO : ℕ × ℕ := (0xBF, 0x66)
def RAC_PT1411HWRU_FAN_LOW : ℕ × ℕ := (0x9F, 0x28)
def RAC_PT1411HWRU_FAN_MED : ℕ × ℕ := (0x5F, 0x3C)
def RAC_PT1411HWRU_FAN_HIGH : ℕ × ℕ := (0x3F, 0x64)
def RAC_PT1411HWRU_NO_FAN : ℕ × ℕ := (0x1F, 0x65)
def RAC_PT1411HWRU_MODE_AUTO : ℕ := 0x08
def RAC_PT1411HWRU_MODE_COOL : ℕ := 0x00
def RAC_PT1411HWRU_MODE_DRY : ℕ := 0x04
def RAC_PT1411HWRU_MODE_FAN : ℕ := 0x04
def RAC_PT1411HWRU_MODE_HEAT : ℕ := 0x0C
def RAC_PT1411HWRU_MODE_OFF : ℕ := 0x00
def RAC_PT1411HWRU_TEMPERATURE_FAN_ONLY : ℕ := 0x0E
def RAC_PT1411HWRU_TEMPERATURE_C : List ℕ :=
  [0x10, 0x00, 0x01, 0x03, 0x02, 0x06, 0x07, 0x05,
   0x04, 0x0C, 0x0D, 0x09, 0x08, 0x0A, 0x0B]
def RAC_PT1411HWRU_TEMPERATURE_F : List ℕ :=
  [0x10, 0x30, 0x00, 0x20, 0x01, 0x21, 0x03, 0x23, 0x02,
   0x22, 0x06, 0x26, 0x07, 0x05, 0x25, 0x04, 0x24, 0x0C,
   0x2C, 0x0D, 0x2D, 0x09, 0x08, 0x28, 0x0A, 0x2A, 0x0B]
def RAS_2819T_HEADER1 : ℕ := 0xC23D
def RAS_2819T_HEADER2 : ℕ := 0xD5
def RAS_2819T_FAN_AUTO : ℕ := 0xBF40
def RAS_2819T_FAN_QUIET : ℕ := 0xFF00
def RAS_2819T_FAN_LOW : ℕ := 0x9F60
def RAS_2819T_FAN_MEDIUM : ℕ := 0x5FA0
def RAS_2819T_FAN_HIGH : ℕ := 0x3FC0
def RAS_2819T_FAN2_AUTO : ℕ := 0x66
def RAS_2819T_FAN2_QUIET : ℕ := 0x01
def RAS_2819T_FAN2_LOW : ℕ := 0x28
def RAS_2819T_FAN2_MEDIUM : ℕ := 0x3C
def RAS_2819T_FAN2_HIGH : ℕ := 0x50
def RAS_2819T_SWING_TOGGLE : ℕ := 0xC23D6B94E01F
def RAS_2819T_POWER_OFF_COMMAND : ℕ := 0xC23D7B84E01F
def RAS_2819T_TEMP_CODES : List ℕ :=
  [0x10, 0x30, 0x20, 0x60, 0x70, 0x50, 0x40, 0xC0, 0xD0, 0x90, 0x80, 0xA0, 0xB0]

/-- Mutable attributes of `ToshibaProtocol`: model selection and the
last-command tracking used by the RAS-2819T swing-only shortcut. -/
structure State where
  model : ℕ
  lastSwingMode : SM
  lastHvacMode : HM
  lastFanMode : FM
  lastTargetTemperature : ℚ
  deriving DecidableEq, Repr

/-- State of a freshly constructed `ToshibaProtocol` with the given model. -/
def freshModel (model : ℕ) : State :=
  { model := model, lastSwingMode := SM.off, lastHvacMode := HM.off,
    lastFanMode := FM.auto, lastTargetTemperature := 24 }

def fresh : State := freshModel MODEL_GENERIC

/-- `temperature_min` property (set in `__init__` from the model). -/
def temperatureMin (s : State) : ℚ :=
  if s.model = MODEL_RAC_PT1411HWRU_C ∨ s.model = MODEL_RAC_PT1411HWRU_F then
    TEMP_MIN_RAC_PT1411HWRU
  else if s.model = MODEL_RAS_2819T then TEMP_MIN_RAS_2819T
  else TEMP_MIN_GENERIC

/-- `temperature_max` property (set in `__init__` from the model). -/
def temperatureMax (s : State) : ℚ :=
  if s.model = MODEL_RAC_PT1411HWRU_C ∨ s.model = MODEL_RAC_PT1411HWRU_F then
    TEMP_MAX_RAC_PT1411HWRU
  else if s.model = MODEL_RAS_2819T then TEMP_MAX_RAS_2819T
  else TEMP_MAX_GENERIC

/-- `ToshibaProtocol._encode_to_pulses`: `repeat+1` copies of
header + `nbytes` bytes MSB-first + `[mark, GAP_SPACE]`. -/
def encodeToPulses (message : List ℕ) (nbytes rep : ℕ) : List ℕ :=
  (List.range (rep + 1)).flatMap (fun _ =>
    [HEADER_MARK, HEADER_SPACE] ++
      encodeBytesMSB BIT_MARK ONE_SPACE ZERO_SPACE (message.take nbytes) ++
      [BIT_MARK, GAP_SPACE])

/-- The 9-byte message of `_generate_generic_code`. -/
def genericMessage (hvacMode : HM) (targetTemp : ℚ) (fanMode : FM) : List ℕ :=
  let m0 := 0xf2
  let m1 := 0x0d
  let m2 := 3
  let m3 := m0 ^^^ m1 ^^^ m2
  let m4 := COMMAND_DEFAULT
  let tempVal := pyTruncNat (max TEMP_MIN_GENERIC (min TEMP_MAX_GENERIC targetTemp))
  let m5 := (tempVal - 17) <<< 4
  let modeByte :=
    match hvacMode with
    | HM.off => MODE_OFF
    | HM.heat => MODE_HEAT
    | HM.cool => MODE_COOL
    | HM.dry => MODE_DRY
    | HM.fanOnly => MODE_FAN_ONLY
    | _ => MODE_AUTO
  let fanByte :=
    match fanMode with
    | FM.quiet => FAN_SPEED_QUIET
    | FM.low => FAN_SPEED_1
    | FM.medium => FAN_SPEED_3
    | FM.high => FAN_SPEED_5
    | _ => FAN_SPEED_AUTO
  let m6 := fanByte ||| modeByte
  let m7 := 0x00
  let m8 := ((((0 ^^^ m4) ^^^ m5) ^^^ m6) ^^^ m7)
  [m0, m1, m2, m3, m4, m5, m6, m7, m8]

/-- `_generate_generic_swing` returns the empty pulse list. -/
def genericSwing : List ℕ := []

/-- `_generate_generic_code`: one repeated 9-byte packet; the swing part is
empty. -/
def genericCode (hvacMode : HM) (targetTemp : ℚ) (fanMode : FM)
    (swingMode : SM) : List ℕ :=
  encodeToPulses (genericMessage hvacMode targetTemp fanMode) 9 1 ++
    (if swingMode = SM.vertical then genericSwing else [])

/-- `_build_rac_pt1411hwru_main`: the 12-byte main message. -/
def racMain (model : ℕ) (hvacMode : HM) (targetTemp : ℚ) (fanMode : FM) :
    List ℕ :=
  let temperature :=
    max TEMP_MIN_RAC_PT1411HWRU (min TEMP_MAX_RAC_PT1411HWRU targetTemp)
  let m0 := RAC_PT1411HWRU_MESSAGE_HEADER0
  let m1 := invByte m0
  let fanPair : ℕ × ℕ :=
    if hvacMode = HM.off then (RAC_PT1411HWRU_FAN_OFF, 0)
    else if hvacMode = HM.auto ∨ hvacMode = HM.heatCool ∨ hvacMode = HM.dry then
      RAC_PT1411HWRU_NO_FAN
    else
      match fanMode with
      | FM.low => RAC_PT1411HWRU_FAN_LOW
      | FM.medium => RAC_PT1411HWRU_FAN_MED
      | FM.high => RAC_PT1411HWRU_FAN_HIGH
      | _ => RAC_PT1411HWRU_FAN_AUTO
  let m2 := fanPair.1
  let m7 := fanPair.2
  let m3 := invByte m2
  let tempIndex := pyTruncNat (temperature - TEMP_MIN_RAC_PT1411HWRU)
  let codeAndFah : ℕ × ℕ :=
    if model = MODEL_RAC_PT1411HWRU_F then
      let temperatureF := temperature * 1.8 + 32
      let tempIndexF := pyTruncNat (temperatureF - 60)
      if tempIndexF < RAC_PT1411HWRU_TEMPERATURE_F.length then
        (RAC_PT1411HWRU_TEMPERATURE_F.getD tempIndexF 0, RAC_PT1411HWRU_FLAG_FAH)
      else (0x10, 0)
    else
      if tempIndex < RAC_PT1411HWRU_TEMPERATURE_C.length then
        (RAC_PT1411HWRU_TEMPERATURE_C.getD tempIndex 0, 0)
      else (0x10, 0)
  let tempCode := codeAndFah.1
  let m8 := if tempCode &&& RAC_PT1411HWRU_FLAG_FRAC ≠ 0 then RAC_PT1411HWRU_FLAG_FRAC else 0
  let m9 := codeAndFah.2 |||
    (if tempCode &&& RAC_PT1411HWRU_FLAG_NEG ≠ 0 then RAC_PT1411HWRU_FLAG_NEG else 0)
  let tempBits := (tempCode &&& RAC_PT1411HWRU_FLAG_MASK) <<< 4
  let bitsPair : ℕ × ℕ :=
    match hvacMode with
    | HM.heat => (tempBits, RAC_PT1411HWRU_MODE_HEAT)
    | HM.cool =>
        if (tempBits >>> 4) = RAC_PT1411HWRU_TEMPERATURE_FAN_ONLY then
          (tempBits, RAC_PT1411HWRU_MODE_OFF)
        else (tempBits, RAC_PT1411HWRU_MODE_COOL)
    | HM.dry => (tempBits, RAC_PT1411HWRU_MODE_DRY)
    | HM.fanOnly =>
        (RAC_PT1411HWRU_TEMPERATURE_FAN_ONLY <<< 4, RAC_PT1411HWRU_MODE_FAN)
    | _ => (tempBits, RAC_PT1411HWRU_MODE_AUTO)
  let m4 := bitsPair.1 ||| bitsPair.2
  let m5 := invByte m4
  let m6 := if hvacMode ≠ HM.off then RAC_PT1411HWRU_MESSAGE_HEADER1 else 0
  let m10 := 0
  let m11 :=
    if hvacMode ≠ HM.off then
      (List.range 5).foldl (fun a i => (a + ([m6, m7, m8, m9, m10].getD i 0)) &&& 0xFF) 0
    else 0
  [m0, m1, m2, m3, m4, m5, m6, m7, m8, m9, m10, m11]

/-- `_generate_rac_pt1411hwru_swing`. -/
def racSwing (swingMode : SM) : List ℕ :=
  if swingMode = SM.vertical then
    encodeToPulses RAC_PT1411HWRU_SWING_VERTICAL 6 1
  else encodeToPulses RAC_PT1411HWRU_SWING_OFF 6 1

/-- `_generate_rac_pt1411hwru_code`: first 6 bytes repeated, second block if
not OFF, then the swing command wrapped in `[mark, PACKET_SPACE]` gaps. -/
def racCode (model : ℕ) (hvacMode : HM) (targetTemp : ℚ) (fanMode : FM)
    (swingMode : SM) : List ℕ :=
  let mainMessage := racMain model hvacMode targetTemp fanMode
  let pulses := encodeToPulses (mainMessage.take 6) 6 1
  let pulses :=
    if hvacMode ≠ HM.off ∧ 6 < mainMessage.length then
      pulses ++ encodeToPulses (mainMessage.drop 6) 6 0
    else pulses
  pulses ++ [BIT_MARK, PACKET_SPACE] ++ racSwing swingMode ++
    [BIT_MARK, PACKET_SPACE]

/-- `_generate_ras_2819t_swing_toggle`: the 48-bit toggle constant as 6
big-endian bytes. -/
def rasSwingToggleMessage : List ℕ :=
  (List.range 6).map (fun i => (RAS_2819T_SWING_TOGGLE >>> ((5 - i) * 8)) &&& 0xFF)

def rasSwingTogglePulses : List ℕ := encodeToPulses rasSwingToggleMessage 6 1

/-- `_get_ras_2819t_temp_code`: unclamped `int(temperature) - 18` lookup with
a fall-back to the 24 degree code `0x40`. -/
def rasTempCode (temperature : ℚ) : ℕ :=
  let tempIndex : ℤ := pyTrunc temperature - 18
  if 0 ≤ tempIndex ∧ tempIndex < (RAS_2819T_TEMP_CODES.length : ℤ) then
    RAS_2819T_TEMP_CODES.getD tempIndex.toNat 0
  else 0x40

/-- `_get_ras_2819t_fan_code`. -/
def rasFanCode (fanMode : FM) : ℕ :=
  match fanMode with
  | FM.quiet => RAS_2819T_FAN_QUIET
  | FM.low => RAS_2819T_FAN_LOW
  | FM.medium => RAS_2819T_FAN_MEDIUM
  | FM.high => RAS_2819T_FAN_HIGH
  | _ => RAS_2819T_FAN_AUTO

/-- `_build_ras_2819t_packet1`. -/
def rasPacket1 (hvacMode : HM) (targetTemp : ℚ) (fanMode : FM) : List ℕ :=
  if hvacMode = HM.off then
    (List.range 6).map (fun i => (RAS_2819T_POWER_OFF_COMMAND >>> ((5 - i) * 8)) &&& 0xFF)
  else
    let m0 := (RAS_2819T_HEADER1 >>> 8) &&& 0xFF
    let m1 := RAS_2819T_HEADER1 &&& 0xFF
    let tempCode := rasTempCode targetTemp
    let fanCode := rasFanCode fanMode
    let fanCode := if hvacMode = HM.dry then RAS_2819T_FAN_AUTO else fanCode
    let m2 := (fanCode >>> 8) &&& 0xFF
    let m3 := fanCode &&& 0xFF
    let m4 :=
      match hvacMode with
      | HM.cool => tempCode
      | HM.heat => tempCode ||| 0x0C
      | HM.auto | HM.heatCool => tempCode ||| 0x08
      | HM.dry => tempCode ||| 0x24
      | HM.fanOnly => 0xE4
      | _ => tempCode
    let m5 := invByte m4
    [m0, m1, m2, m3, m4, m5]

/-- `_get_ras_2819t_second_packet_codes`. -/
def rasSecondPacketCodes (fanMode : FM) (hvacMode : HM) : ℕ × (ℕ × ℕ × ℕ) :=
  let pair : ℕ × (ℕ × ℕ × ℕ) :=
    match fanMode with
    | FM.quiet => (RAS_2819T_FAN2_QUIET, (0x00, 0x02, 0xD8))
    | FM.low => (RAS_2819T_FAN2_LOW, (0x00, 0x02, 0xFF))
    | FM.medium => (RAS_2819T_FAN2_MEDIUM, (0x00, 0x02, 0x13))
    | FM.high => (RAS_2819T_FAN2_HIGH, (0x00, 0x02, 0x27))
    | _ => (RAS_2819T_FAN2_AUTO, (0x00, 0x02, 0x3D))
  if hvacMode = HM.heat then (pair.1, (0x00, 0x00, 0x3B)) else pair

/-- `_build_ras_2819t_packet2`. -/
def rasPacket2 (hvacMode : HM) (fanMode : FM) : List ℕ :=
  let m0 := RAS_2819T_HEADER2
  let codes := rasSecondPacketCodes fanMode hvacMode
  if hvacMode = HM.auto ∨ hvacMode = HM.heatCool ∨ hvacMode = HM.dry then
    [m0, 0x65, 0x00, 0x00, 0x00, 0x3A]
  else
    [m0, codes.1, 0x00, codes.2.1, codes.2.2.1, codes.2.2.2]

/-- `_generate_ras_2819t_code`: first packet repeated, second packet when not
OFF. -/
def rasCode (hvacMode : HM) (targetTemp : ℚ) (fanMode : FM) : List ℕ :=
  let pulses := encodeToPulses (rasPacket1 hvacMode targetTemp fanMode) 6 1
  if hvacMode ≠ HM.off then
    pulses ++ encodeToPulses (rasPacket2 hvacMode fanMode) 6 0
  else pulses

/-- The RAS-2819T swing-only shortcut test of `generate_ir_code`. -/
def swingOnlyShortcut (hvacMode : HM) (targetTemp : ℚ) (fanMode : FM)
    (swingMode : SM) (s : State) : Prop :=
  s.model = MODEL_RAS_2819T ∧ swingMode ≠ s.lastSwingMode ∧
    hvacMode = s.lastHvacMode ∧ fanMode = s.lastFanMode ∧
    ¬(|targetTemp - s.lastTargetTemperature| > 1/10)

instance (hvacMode : HM) (targetTemp : ℚ) (fanMode : FM) (swingMode : SM)
    (s : State) :
    Decidable (swingOnlyShortcut hvacMode targetTemp fanMode swingMode s) := by
  unfold swingOnlyShortcut
  infer_instance

/-- `ToshibaProtocol.generate_ir_code`: pulse list and updated state (the
swing-only shortcut returns without updating the tracking attributes). -/
def generateIrCode (hvacMode : HM) (targetTemp : ℚ) (fanMode : FM)
    (swingMode : SM) (s : State) : List ℕ × State :=
  if swingOnlyShortcut hvacMode targetTemp fanMode swingMode s then
    (rasSwingTogglePulses, s)
  else
    let s1 : State :=
      { s with lastSwingMode := swingMode, lastHvacMode := hvacMode,
               lastFanMode := fanMode, lastTargetTemperature := targetTemp }
    let pulses :=
      if s.model = MODEL_GENERIC then genericCode hvacMode targetTemp fanMode swingMode
      else if s.model = MODEL_RAC_PT1411HWRU_C ∨ s.model = MODEL_RAC_PT1411HWRU_F then
        racCode s.model hvacMode targetTemp fanMode swingMode
      else if s.model = MODEL_RAS_2819T then rasCode hvacMode targetTemp fanMode
      else genericCode hvacMode targetTemp fanMode swingMode
    (pulses, s1)

end Toshiba

/-! ## Registry (`climate_protocols/__init__.py` and `const.py`) -/

/-- `const.SUPPORTED_BRANDS`. -/
def SUPPORTED_BRANDS : List String :=
  ["lg", "mitsubishi", "daikin", "toshiba",
   "midea", "gree", "fujitsu", "tcl",
   "ballu", "coolix", "hitachi", "whirlpool",
   "whynter", "yashima", "general"]

/-- The protocol classes reachable through the registry.  The source's
`PROTOCOL_MAP` dictionary contains a single entry, `{'lg': LGProtocol}`. -/
inductive Facade | lgFacade
  deriving DecidableEq, Repr

/-- `climate_protocols.PROTOCOL_MAP`. -/
def PROTOCOL_MAP : List (String × Facade) := [("lg", Facade.lgFacade)]

/-- `climate_protocols.get_protocol`: returns a protocol instance for a
registered brand, raises `ValueError` (modelled as `Except.error`) otherwise. -/
def getProtocol (brand : String) : Except String Facade :=
  match PROTOCOL_MAP.find? (fun p => p.1 = brand) with
  | some p => Except.ok p.2
  | none => Except.error ("Unsupported climate brand: " ++ brand)

/-- `climate_protocols.get_supported_brands`. -/
def getSupportedBrands : List String := PROTOCOL_MAP.map Prod.fst

/-- Whether `get_protocol` succeeds for a brand string. -/
def resolves (brand : String) : Bool :=
  match getProtocol brand with
  | Except.ok _ => true
  | Except.error _ => false

/-! ## Claim theorems -/

/-- C1: the spec says every brand in `SUPPORTED_BRANDS` resolves to a protocol
facade and only unregistered brands fail.  In the code `PROTOCOL_MAP` holds
only `lg`, so `get_protocol` raises `ValueError` for the other fourteen
entries of `SUPPORTED_BRANDS` even though their protocol classes exist:
resolution succeeds exactly for `lg`. -/
theorem c1_registry_resolves_only_lg :
    "mitsubishi" ∈ SUPPORTED_BRANDS ∧
    getProtocol "mitsubishi" =
      Except.error "Unsupported climate brand: mitsubishi" ∧
    resolves "lg" = true ∧
    (∀ b ∈ SUPPORTED_BRANDS, b ≠ "lg" → resolves b = false) ∧
    SUPPORTED_BRANDS.length = 15 :=
  ⟨by decide, by rfl, by decide, by decide, by decide⟩

/-- C7: LG with `mode=Cool, temp=24, fan=High, swing=Off` from fresh state:
the final 28-bit word has top nibble `0x8`, temperature nibble `24-15 = 9` at
bit offset 8, and checksum nibble equal to the sum of nibbles 1-7 mod 16. -/
theorem c7_lg_concrete_scenario :
    ((LG.finalWord HM.cool 24 FM.high SM.off LG.fresh >>> 24) &&& 0xF) = 0x8 ∧
    ((LG.finalWord HM.cool 24 FM.high SM.off LG.fresh >>> 8) &&& 0xF) = 24 - 15 ∧
    (LG.finalWord HM.cool 24 FM.high SM.off LG.fresh &&& 0xF) =
      ((List.range 7).foldl
        (fun acc i =>
          acc + ((LG.finalWord HM.cool 24 FM.high SM.off LG.fresh >>> ((i + 1) * 4)) &&& 0xF))
        0) % 16 ∧
    (LG.generateIrCode HM.cool 24 FM.high SM.off LG.fresh).1 =
      LG.encodeToPulses (LG.finalWord HM.cool 24 FM.high SM.off LG.fresh) := by
  decide

/-- C8: Ballu `mode=Heat, temp=22, fan=Low, swing=Off` yields byte 0 `0xC3`
in a 13-byte frame, and for every command the emitted checksum byte 12 equals
the sum of the emitted bytes 0-11 mod 256. -/
theorem c8_ballu_checksum_closure :
    (∀ (hvacMode : HM) (targetTemp : ℚ) (fanMode : FM) (swingMode : SM),
      (Ballu.frame hvacMode targetTemp fanMode swingMode).getD 12 0 =
        ((Ballu.frame hvacMode targetTemp fanMode swingMode).take 12).sum % 256) ∧
    (Ballu.frame HM.heat 22 FM.low SM.off).getD 0 0 = 0xC3 ∧
    (Ballu.frame HM.heat 22 FM.low SM.off).length = 13 ∧
    Ballu.generateIrCode HM.heat 22 FM.low SM.off =
      Ballu.encodeToPulses (Ballu.frame HM.heat 22 FM.low SM.off) :=
  ⟨fun _ _ _ _ => rfl, by decide, by decide, rfl⟩

/-- C9: TCL112 at `temp=23.5` sets the half-degree flag `0x20` in byte 12 and
byte 7's low nibble is `31 - 23 = 8`; in general the flag is set exactly when
twice the clamped temperature is an odd integer. -/
theorem c9_tcl_half_degree :
    ((TCL.frame HM.cool 23.5 FM.auto SM.off).getD 12 0 &&& 0x20 = 0x20) ∧
    ((TCL.frame HM.cool 23.5 FM.auto SM.off).getD 7 0 &&& 0x0F = 8) ∧
    (∀ (hvacMode : HM) (targetTemp : ℚ) (fanMode : FM) (swingMode : SM) (n : ℤ),
      2 * TCL.safeTemp targetTemp = (n : ℚ) →
      (((TCL.frame hvacMode targetTemp fanMode swingMode).getD 12 0 &&& 0x20 ≠ 0) ↔
        Odd n)) := by
  refine ⟨by decide, by decide, ?_⟩
  intro hvacMode targetTemp fanMode swingMode n hn
  have h16 : (16 : ℚ) ≤ TCL.safeTemp targetTemp := le_max_left _ _
  have hn32 : (32 : ℚ) ≤ (n : ℚ) := by rw [← hn]; linarith
  have hn0 : (0 : ℤ) ≤ n := by exact_mod_cast (by linarith : (0 : ℚ) ≤ (n : ℚ))
  have hd_eq : TCL.halfDegrees targetTemp = n.toNat := by
    unfold TCL.halfDegrees pyTruncNat pyTrunc
    rw [show TCL.safeTemp targetTemp * 2 = (n : ℚ) by linarith]
    rw [if_neg (not_lt.mpr (by exact_mod_cast hn0))]
    rw [Int.floor_intCast]
  have gd : (TCL.frame hvacMode targetTemp fanMode swingMode).getD 12 0 =
      (if TCL.halfDegrees targetTemp &&& 1 ≠ 0 then 0x20 else 0) := rfl
  rw [gd, hd_eq, Nat.and_one_is_mod]
  rcases Int.even_or_odd n with he | ho
  · have h2 : n.toNat % 2 = 0 := by
      rcases he with ⟨k, hk⟩; omega
    rw [h2, if_neg (by decide)]
    exact iff_of_false (by decide) (by rwa [← Int.not_odd_iff_even] at he)
  · have h2 : n.toNat % 2 = 1 := by
      rcases ho with ⟨k, hk⟩; omega
    rw [h2, if_pos (by decide)]
    exact iff_of_true (by decide) ho

/-- Witness for C9's hypothesis at the concrete input `temp = 23.5`,
`n = 47`. -/
theorem c9_tcl_half_degree_witness :
    2 * TCL.safeTemp 23.5 = ((47 : ℤ) : ℚ) ∧
    (((TCL.frame HM.cool 23.5 FM.auto SM.off).getD 12 0 &&& 0x20 ≠ 0) ↔
      Odd (47 : ℤ)) :=
  ⟨by decide, c9_tcl_half_degree.2.2 HM.cool 23.5 FM.auto SM.off 47 (by decide)⟩

/-- C10: Whirlpool from a fresh (powered-off-assumed) state: the first
`mode=Cool` call sets the power-toggle bit (`0x04` of byte 2); an immediate
second identical call does not; in general the power-toggle sub-byte is set
exactly when the commanded power state differs from the assumed one. -/
theorem c10_whirlpool_power_toggle :
    ((Whirlpool.frame HM.cool 24 FM.auto SM.off Whirlpool.fresh).getD 2 0 &&&
        Whirlpool.POWER_MASK ≠ 0) ∧
    (Whirlpool.generateIrCode HM.cool 24 FM.auto SM.off
        Whirlpool.fresh).2.poweredOnAssumed = true ∧
    ((Whirlpool.frame HM.cool 24 FM.auto SM.off
        ((Whirlpool.generateIrCode HM.cool 24 FM.auto SM.off
          Whirlpool.fresh).2)).getD 2 0 &&& Whirlpool.POWER_MASK = 0) ∧
    (∀ (hvacMode : HM) (targetTemp : ℚ) (fanMode : FM) (swingMode : SM)
        (s : Whirlpool.State),
      ((Whirlpool.frame hvacMode targetTemp fanMode swingMode s).getD 2 0 &&&
          Whirlpool.POWER_MASK ≠ 0) ↔
        ¬((hvacMode ≠ HM.off) ↔ s.poweredOnAssumed = true)) := by
  refine ⟨by decide, by decide, by decide, ?_⟩
  intro hvacMode targetTemp fanMode swingMode s
  have hb2 : (Whirlpool.frame hvacMode targetTemp fanMode swingMode s).getD 2 0 =
      Whirlpool.byte2Of hvacMode fanMode swingMode s := by
    with_unfolding_all rfl
  rw [hb2]
  obtain ⟨model, p, sp⟩ := s
  simp only [Whirlpool.byte2Of, Whirlpool.powerToggles]
  cases hvacMode <;> cases fanMode <;> cases swingMode <;> cases p <;> cases sp <;>
    simp [Whirlpool.POWER_MASK, Whirlpool.SWING_MASK, Whirlpool.FAN_HIGH,
      Whirlpool.FAN_MED, Whirlpool.FAN_LOW, Whirlpool.FAN_AUTO] <;> decide

/-- C2 counterexample: from fresh Coolix state, the first `swing=vertical`
call emits the swing-toggle frame, the second does not, but the subsequent
`swing=off` call also does not emit the swing-toggle frame — the code never
sends `COOLIX_SWING` for a non-vertical swing argument, contrary to the
claim that the `swing=off` call emits it again. -/
theorem c2_counterexample_swing_off_no_toggle :
    (Coolix.generateIrCode HM.cool 24 FM.auto SM.vertical Coolix.fresh).1 =
      Coolix.encodeCoolixCommand Coolix.COOLIX_SWING ∧
    (Coolix.generateIrCode HM.cool 24 FM.auto SM.vertical
      ((Coolix.generateIrCode HM.cool 24 FM.auto SM.vertical Coolix.fresh).2)).1 ≠
      Coolix.encodeCoolixCommand Coolix.COOLIX_SWING ∧
    (Coolix.generateIrCode HM.cool 24 FM.auto SM.off
      ((Coolix.generateIrCode HM.cool 24 FM.auto SM.vertical
        ((Coolix.generateIrCode HM.cool 24 FM.auto SM.vertical Coolix.fresh).2)).2)).1 ≠
      Coolix.encodeCoolixCommand Coolix.COOLIX_SWING := by
  decide

/-- C2 amended: Coolix emits its dedicated swing-toggle frame exactly on a
`swing=vertical` call whose `swing_pending` flag is clear; that call sets the
flag, and every other call (a repeated vertical call, or any non-vertical
call) emits the OFF or normal frame and clears the flag.  Hence two
consecutive vertical calls emit the toggle only on the first, a third
vertical call emits it again, and a `swing=off` call never emits it. -/
theorem c2_amended_toggle_emission :
    (∀ (hvacMode : HM) (targetTemp : ℚ) (fanMode : FM) (s : Coolix.State),
      s.swingPending = false →
      (Coolix.generateIrCode hvacMode targetTemp fanMode SM.vertical s).1 =
          Coolix.encodeCoolixCommand Coolix.COOLIX_SWING ∧
      (Coolix.generateIrCode hvacMode targetTemp fanMode SM.vertical
        s).2.swingPending = true) ∧
    (∀ (hvacMode : HM) (targetTemp : ℚ) (fanMode : FM) (s : Coolix.State),
      s.swingPending = true →
      (Coolix.generateIrCode hvacMode targetTemp fanMode SM.vertical s).1 =
          (if hvacMode = HM.off then Coolix.encodeCoolixCommand Coolix.COOLIX_OFF
           else Coolix.encodeCoolixCommand
             (Coolix.normalWord hvacMode targetTemp fanMode)) ∧
      (Coolix.generateIrCode hvacMode targetTemp fanMode SM.vertical
        s).2.swingPending = false) ∧
    (∀ (hvacMode : HM) (targetTemp : ℚ) (fanMode : FM) (swingMode : SM)
        (s : Coolix.State), swingMode ≠ SM.vertical →
      (Coolix.generateIrCode hvacMode targetTemp fanMode swingMode s).1 =
          (if hvacMode = HM.off then Coolix.encodeCoolixCommand Coolix.COOLIX_OFF
           else Coolix.encodeCoolixCommand
             (Coolix.normalWord hvacMode targetTemp fanMode)) ∧
      (Coolix.generateIrCode hvacMode targetTemp fanMode swingMode
        s).2.swingPending = false) ∧
    (Coolix.generateIrCode HM.cool 24 FM.auto SM.vertical
      ((Coolix.generateIrCode HM.cool 24 FM.auto SM.vertical
        ((Coolix.generateIrCode HM.cool 24 FM.auto SM.vertical
          Coolix.fresh).2)).2)).1 =
      Coolix.encodeCoolixCommand Coolix.COOLIX_SWING ∧
    (Coolix.generateIrCode HM.cool 24 FM.auto SM.off
      ((Coolix.generateIrCode HM.cool 24 FM.auto SM.vertical
        ((Coolix.generateIrCode HM.cool 24 FM.auto SM.vertical
          Coolix.fresh).2)).2)).1 =
      Coolix.encodeCoolixCommand (Coolix.normalWord HM.cool 24 FM.auto) := by
  refine ⟨?_, ?_, ?_, by decide, by decide⟩
  · intro hvacMode targetTemp fanMode s hs
    simp [Coolix.generateIrCode, hs]
  · intro hvacMode targetTemp fanMode s hs
    simp [Coolix.generateIrCode, hs]
    constructor <;> split_ifs <;> rfl
  · intro hvacMode targetTemp fanMode swingMode s hsw
    simp [Coolix.generateIrCode, hsw]
    constructor <;> split_ifs <;> rfl

/-- Witness for C2's amended statement: the first vertical call from the
fresh state (flag clear) emits the toggle frame and sets the flag. -/
theorem c2_amended_toggle_emission_witness :
    Coolix.fresh.swingPending = false ∧
    ((Coolix.generateIrCode HM.cool 24 FM.auto SM.vertical Coolix.fresh).1 =
        Coolix.encodeCoolixCommand Coolix.COOLIX_SWING ∧
      (Coolix.generateIrCode HM.cool 24 FM.auto SM.vertical
        Coolix.fresh).2.swingPending = true) :=
  ⟨rfl, c2_amended_toggle_emission.1 HM.cool 24 FM.auto Coolix.fresh rfl⟩

/-- Entries below the write cursor are untouched by `invertFrom`. -/
theorem invertFrom_of_lt (fuel : ℕ) :
    ∀ (f : ℕ → ℕ) (i k : ℕ), k < i → Hitachi.invertFrom f i fuel k = f k := by
  induction fuel with
  | zero => intro f i k hk; rfl
  | succ fl ih =>
      intro f i k hk
      show Hitachi.invertFrom (upd f i (invByte (f (i - 1)))) (i + 2) fl k = f k
      rw [ih _ _ _ (by omega)]
      simp [upd, Nat.ne_of_lt hk]

/-- After `invertFrom f i fuel`, every entry at an even offset from `i`
within the processed window is the inverted predecessor byte. -/
theorem invertFrom_pair (fuel : ℕ) :
    ∀ (f : ℕ → ℕ) (i j : ℕ), 1 ≤ i → i ≤ j → j < i + 2 * fuel →
      (j - i) % 2 = 0 →
      Hitachi.invertFrom f i fuel j =
        invByte (Hitachi.invertFrom f i fuel (j - 1)) := by
  induction fuel with
  | zero => intro f i j _ h1 h2 _; omega
  | succ fl ih =>
      intro f i j hi hij hlt hpar
      show Hitachi.invertFrom (upd f i (invByte (f (i - 1)))) (i + 2) fl j =
        invByte (Hitachi.invertFrom (upd f i (invByte (f (i - 1)))) (i + 2) fl (j - 1))
      rcases eq_or_lt_of_le hij with heq | hgt
      · obtain rfl := heq
        rw [invertFrom_of_lt _ _ _ _ (by omega), invertFrom_of_lt _ _ _ _ (by omega)]
        simp only [upd, if_pos rfl]
        simp [show ¬(i - 1 = i) by omega]
      · have h2 : i + 2 ≤ j := by omega
        exact ih _ (i + 2) j (by omega) h2 (by omega) (by omega)

/-- C4 counterexample: in the frame emitted for a concrete command from the
fresh state, byte 3 (odd index) is `0x40` while its predecessor byte 2 is
`0x00`, and byte 5 is `0xFF` while byte 4 is `0xBF`; neither odd byte is the
complement of its predecessor — the inversion writes the *even* bytes. -/
theorem c4_counterexample_odd_bytes :
    (Hitachi.generateIrCode HM.cool 24 FM.auto SM.off Hitachi.fresh).2.remoteState 3 = 0x40 ∧
    (Hitachi.generateIrCode HM.cool 24 FM.auto SM.off Hitachi.fresh).2.remoteState 2 = 0x00 ∧
    (Hitachi.generateIrCode HM.cool 24 FM.auto SM.off Hitachi.fresh).2.remoteState 3 ≠
      invByte ((Hitachi.generateIrCode HM.cool 24 FM.auto SM.off
        Hitachi.fresh).2.remoteState 2) ∧
    (Hitachi.generateIrCode HM.cool 24 FM.auto SM.off Hitachi.fresh).2.remoteState 5 = 0xFF ∧
    (Hitachi.generateIrCode HM.cool 24 FM.auto SM.off Hitachi.fresh).2.remoteState 5 ≠
      invByte ((Hitachi.generateIrCode HM.cool 24 FM.auto SM.off
        Hitachi.fresh).2.remoteState 4) := by
  decide

/-- C4 amended: in every 43-byte frame emitted by `generate_ir_code`, every
byte at an even index from 4 through 42 (the second byte of each inverted
pair starting at index 3) is the bitwise complement of its predecessor. -/
theorem c4_amended_even_byte_inversion
    (hvacMode : HM) (targetTemp : ℚ) (fanMode : FM) (swingMode : SM)
    (s : Hitachi.State) (j : ℕ) (h4 : 4 ≤ j) (h42 : j ≤ 42) (heven : j % 2 = 0) :
    (Hitachi.generateIrCode hvacMode targetTemp fanMode swingMode s).2.remoteState j =
      invByte ((Hitachi.generateIrCode hvacMode targetTemp fanMode swingMode
        s).2.remoteState (j - 1)) := by
  have h2 : ∀ g : ℕ → ℕ, Hitachi.invertBytePairs g 3 (Hitachi.STATE_LENGTH - 3) =
      Hitachi.invertFrom g 4 20 := fun g => rfl
  have hrs : (Hitachi.generateIrCode hvacMode targetTemp fanMode swingMode
      s).2.remoteState =
      Hitachi.invertBytePairs
        (Hitachi.preInvertState hvacMode targetTemp fanMode swingMode s).remoteState
        3 (Hitachi.STATE_LENGTH - 3) := rfl
  rw [hrs, h2]
  exact invertFrom_pair 20 _ 4 j (by omega) (by omega) (by omega) (by omega)

/-- Witness for C4's amended statement at index 4 of a concrete frame. -/
theorem c4_amended_even_byte_inversion_witness :
    (4 ≤ 4 ∧ 4 ≤ 42 ∧ 4 % 2 = 0) ∧
    (Hitachi.generateIrCode HM.cool 24 FM.auto SM.off Hitachi.fresh).2.remoteState 4 =
      invByte ((Hitachi.generateIrCode HM.cool 24 FM.auto SM.off
        Hitachi.fresh).2.remoteState 3) :=
  ⟨⟨by decide, by decide, by decide⟩,
    c4_amended_even_byte_inversion HM.cool 24 FM.auto SM.off Hitachi.fresh 4
      (by decide) (by decide) (by decide)⟩

/-- `_set_temp` writes `remote_state` only at the button byte. -/
theorem hitachi_setTemp_away (celsius : ℤ) (b : Bool) (s : Hitachi.State)
    (j : ℕ) (hj : j ≠ Hitachi.BUTTON_BYTE) :
    (Hitachi.setTemp celsius b s).remoteState j = s.remoteState j := by
  have hj' : j ≠ 11 := hj
  simp only [Hitachi.setTemp, Hitachi.BUTTON_BYTE]
  split_ifs <;> simp [upd, hj']

/-- `_set_fan` state writes agree away from the button byte whenever the two
input states agree away from the button byte. -/
theorem hitachi_setFan_congr (speed : ℕ) (s1 s2 : Hitachi.State)
    (h : ∀ k, k ≠ Hitachi.BUTTON_BYTE → s1.remoteState k = s2.remoteState k)
    (j : ℕ) (hj : j ≠ Hitachi.BUTTON_BYTE) :
    (Hitachi.setFan speed s1).remoteState j = (Hitachi.setFan speed s2).remoteState j := by
  have hj' : j ≠ 11 := hj
  have h25 : s1.remoteState 25 = s2.remoteState 25 := h 25 (by decide)
  have hjj : s1.remoteState j = s2.remoteState j := h j hj
  simp only [Hitachi.setFan, Hitachi.getFan, Hitachi.getBits, Hitachi.MODE_BYTE,
    Hitachi.FAN_BYTE, h25]
  split_ifs <;> simp [upd, hjj]

/-- Away from the button byte, `stage4` (the swing dispatch) does not change
the state. -/
theorem hitachi_stage4_away (swingMode : SM) (s : Hitachi.State) (j : ℕ)
    (hj : j ≠ Hitachi.BUTTON_BYTE) :
    (Hitachi.stage4 swingMode s).remoteState j = s.remoteState j := by
  have hj' : j ≠ 11 := hj
  cases swingMode <;>
    simp [Hitachi.stage4, Hitachi.setSwingH, Hitachi.setSwingV, upd, hj',
      Hitachi.BUTTON_BYTE]

/-- The `remote_state` array handed to `_invert_byte_pairs` is independent of
the requested temperature. -/
theorem hitachi_preInvert_temp_irrel (hvacMode : HM) (t1 t2 : ℚ) (fanMode : FM)
    (swingMode : SM) (s : Hitachi.State) :
    (Hitachi.preInvertState hvacMode t1 fanMode swingMode s).remoteState =
    (Hitachi.preInvertState hvacMode t2 fanMode swingMode s).remoteState := by
  have h2 : ∀ k, k ≠ Hitachi.BUTTON_BYTE →
      (Hitachi.stage2 hvacMode t1 (Hitachi.stage1 hvacMode s)).remoteState k =
      (Hitachi.stage2 hvacMode t2 (Hitachi.stage1 hvacMode s)).remoteState k := by
    intro k hk
    simp only [Hitachi.stage2]
    split_ifs
    · rw [hitachi_setTemp_away _ _ _ _ hk, hitachi_setTemp_away _ _ _ _ hk]
    · rfl
  have h3 : ∀ k, k ≠ Hitachi.BUTTON_BYTE →
      (Hitachi.stage3 hvacMode fanMode
        (Hitachi.stage2 hvacMode t1 (Hitachi.stage1 hvacMode s))).remoteState k =
      (Hitachi.stage3 hvacMode fanMode
        (Hitachi.stage2 hvacMode t2 (Hitachi.stage1 hvacMode s))).remoteState k := by
    intro k hk
    simp only [Hitachi.stage3]
    split_ifs
    · cases fanMode <;> exact hitachi_setFan_congr _ _ _ h2 k hk
    · exact h2 k hk
  funext j
  by_cases hj : j = Hitachi.BUTTON_BYTE
  · subst hj
    simp [Hitachi.preInvertState, upd]
  · simp only [Hitachi.preInvertState, upd]
    simp only [if_neg hj]
    rw [hitachi_stage4_away _ _ _ hj, hitachi_stage4_away _ _ _ hj]
    exact h3 j hj

/-- C3: the Hitachi pulse stream is independent of `target_temp`: two calls
from equal protocol states whose arguments differ only in the temperature
return identical pulse sequences.  The temperature bit-write of `_set_temp`
goes into a discarded fresh one-element list, and the button byte it does
write is overwritten with `BUTTON_POWER` before encoding. -/
theorem c3_hitachi_pulses_temp_independent (hvacMode : HM) (t1 t2 : ℚ)
    (fanMode : FM) (swingMode : SM) (s : Hitachi.State) :
    (Hitachi.generateIrCode hvacMode t1 fanMode swingMode s).1 =
    (Hitachi.generateIrCode hvacMode t2 fanMode swingMode s).1 := by
  simp only [Hitachi.generateIrCode]
  rw [hitachi_preInvert_temp_irrel hvacMode t1 t2 fanMode swingMode s]

/-! Generic pulse-list facts used for the alternation/positivity invariant. -/

theorem pos_append (l1 l2 : List ℕ) (h1 : ∀ x ∈ l1, 0 < x) (h2 : ∀ x ∈ l2, 0 < x) :
    ∀ x ∈ l1 ++ l2, 0 < x := by
  intro x hx
  rcases List.mem_append.mp hx with h | h
  · exact h1 x h
  · exact h2 x h

theorem pos_flatMap {α : Type} (l : List α) (f : α → List ℕ)
    (h : ∀ a ∈ l, ∀ x ∈ f a, 0 < x) : ∀ x ∈ l.flatMap f, 0 < x := by
  intro x hx
  obtain ⟨a, ha, hx⟩ := List.mem_flatMap.mp hx
  exact h a ha x hx

theorem encodeByteLSB_pos (m o z b : ℕ) (hm : 0 < m) (ho : 0 < o) (hz : 0 < z) :
    ∀ x ∈ encodeByteLSB m o z b, 0 < x := by
  intro x hx
  simp only [encodeByteLSB, List.mem_flatMap, List.mem_range] at hx
  obtain ⟨i, _, hx⟩ := hx
  simp only [List.mem_cons, List.not_mem_nil, or_false] at hx
  rcases hx with rfl | rfl
  · exact hm
  · split_ifs <;> assumption

theorem encodeByteMSB_pos (m o z b : ℕ) (hm : 0 < m) (ho : 0 < o) (hz : 0 < z) :
    ∀ x ∈ encodeByteMSB m o z b, 0 < x := by
  intro x hx
  simp only [encodeByteMSB, List.mem_flatMap, List.mem_range] at hx
  obtain ⟨i, _, hx⟩ := hx
  simp only [List.mem_cons, List.not_mem_nil, or_false] at hx
  rcases hx with rfl | rfl
  · exact hm
  · split_ifs <;> assumption

theorem encodeWordMSB_pos (m o z n v : ℕ) (hm : 0 < m) (ho : 0 < o) (hz : 0 < z) :
    ∀ x ∈ encodeWordMSB m o z n v, 0 < x := by
  intro x hx
  simp only [encodeWordMSB, List.mem_flatMap, List.mem_range] at hx
  obtain ⟨i, _, hx⟩ := hx
  simp only [List.mem_cons, List.not_mem_nil, or_false] at hx
  rcases hx with rfl | rfl
  · exact hm
  · split_ifs <;> assumption

theorem encodeBytesLSB_pos (m o z : ℕ) (bs : List ℕ) (hm : 0 < m) (ho : 0 < o)
    (hz : 0 < z) : ∀ x ∈ encodeBytesLSB m o z bs, 0 < x := by
  intro x hx
  obtain ⟨b, _, hx⟩ := List.mem_flatMap.mp hx
  exact encodeByteLSB_pos m o z b hm ho hz x hx

theorem encodeBytesMSB_pos (m o z : ℕ) (bs : List ℕ) (hm : 0 < m) (ho : 0 < o)
    (hz : 0 < z) : ∀ x ∈ encodeBytesMSB m o z bs, 0 < x := by
  intro x hx
  obtain ⟨b, _, hx⟩ := List.mem_flatMap.mp hx
  exact encodeByteMSB_pos m o z b hm ho hz x hx

theorem encodeByteLSB_length (m o z b : ℕ) : (encodeByteLSB m o z b).length = 16 := rfl

theorem encodeByteMSB_length (m o z b : ℕ) : (encodeByteMSB m o z b).length = 16 := rfl

theorem encodeBytesLSB_length (m o z : ℕ) (bs : List ℕ) :
    (encodeBytesLSB m o z bs).length = 16 * bs.length := by
  induction bs with
  | nil => rfl
  | cons b bs ih =>
      show (encodeByteLSB m o z b ++ encodeBytesLSB m o z bs).length = _
      rw [List.length_append, encodeByteLSB_length, ih, List.length_cons]
      ring

theorem encodeBytesMSB_length (m o z : ℕ) (bs : List ℕ) :
    (encodeBytesMSB m o z bs).length = 16 * bs.length := by
  induction bs with
  | nil => rfl
  | cons b bs ih =>
      show (encodeByteMSB m o z b ++ encodeBytesMSB m o z bs).length = _
      rw [List.length_append, encodeByteMSB_length, ih, List.length_cons]
      ring

theorem flatMap_pair_length {α : Type} (l : List α) (f g : α → ℕ) :
    (l.flatMap (fun a => [f a, g a])).length = 2 * l.length := by
  induction l with
  | nil => rfl
  | cons a l ih =>
      rw [List.flatMap_cons, List.length_append, ih, List.length_cons]
      simp
      ring

theorem encodeWordMSB_length (m o z n v : ℕ) : (encodeWordMSB m o z n v).length = 2 * n := by
  have h := flatMap_pair_length (List.range n) (fun _ => m)
    (fun i => if v.testBit (n - 1 - i) then o else z)
  simpa [encodeWordMSB, List.length_range] using h

theorem length_flatMap_const {α : Type} (l : List α) (f : α → List ℕ) (k : ℕ)
    (h : ∀ a ∈ l, (f a).length = k) : (l.flatMap f).length = l.length * k := by
  induction l with
  | nil => simp
  | cons a l ih =>
      rw [List.flatMap_cons, List.length_append, h a (List.mem_cons_self a l),
        ih (fun b hb => h b (List.mem_cons_of_mem a hb)), List.length_cons]
      ring

theorem length_flatMap_even {α : Type} (l : List α) (f : α → List ℕ)
    (h : ∀ a ∈ l, (f a).length % 2 = 0) : (l.flatMap f).length % 2 = 0 := by
  induction l with
  | nil => rfl
  | cons a l ih =>
      rw [List.flatMap_cons, List.length_append, Nat.add_mod,
        h a (List.mem_cons_self a l),
        ih (fun b hb => h b (List.mem_cons_of_mem a hb))]

/-! Per-brand pulse-stream well-formedness (positivity, parity, nonemptiness). -/

theorem lg_pulses_ok (hv : HM) (t : ℚ) (f : FM) (sw : SM) (s : LG.State) :
    (∀ x ∈ (LG.generateIrCode hv t f sw s).1, 0 < x) ∧
    (LG.generateIrCode hv t f sw s).1.length % 2 = 1 ∧
    0 < (LG.generateIrCode hv t f sw s).1.length := by
  have hg : (LG.generateIrCode hv t f sw s).1 =
      LG.encodeToPulses (LG.finalWord hv t f sw s) := rfl
  have hl : ∀ v, (LG.encodeToPulses v).length = 59 := by
    intro v
    simp [LG.encodeToPulses, encodeWordMSB_length]
  have hp : ∀ v, ∀ x ∈ LG.encodeToPulses v, 0 < x := by
    intro v
    exact pos_append _ _
      (pos_append _ _ (by decide)
        (encodeWordMSB_pos _ _ _ _ _ (by decide) (by decide) (by decide))) (by decide)
  refine ⟨?_, ?_, ?_⟩ <;> rw [hg]
  · exact hp _
  · rw [hl]
  · rw [hl]
    decide

theorem coolix_command_ok (c : ℕ) :
    (∀ x ∈ Coolix.encodeCoolixCommand c, 0 < x) ∧
    (Coolix.encodeCoolixCommand c).length = 51 := by
  constructor
  · exact pos_append _ _
      (pos_append _ _ (by decide)
        (encodeBytesLSB_pos _ _ _ _ (by decide) (by decide) (by decide))) (by decide)
  · simp [Coolix.encodeCoolixCommand, encodeBytesLSB_length]

theorem coolix_pulses_ok (hv : HM) (t : ℚ) (f : FM) (sw : SM) (s : Coolix.State) :
    (∀ x ∈ (Coolix.generateIrCode hv t f sw s).1, 0 < x) ∧
    (Coolix.generateIrCode hv t f sw s).1.length % 2 = 1 ∧
    0 < (Coolix.generateIrCode hv t f sw s).1.length := by
  obtain ⟨c, hc⟩ : ∃ c, (Coolix.generateIrCode hv t f sw s).1 =
      Coolix.encodeCoolixCommand c := by
    simp only [Coolix.generateIrCode]
    split_ifs <;> exact ⟨_, rfl⟩
  refine ⟨?_, ?_, ?_⟩ <;> rw [hc]
  · exact (coolix_command_ok c).1
  · rw [(coolix_command_ok c).2]
  · rw [(coolix_command_ok c).2]
    decide

theorem hitachi_pulses_ok (hv : HM) (t : ℚ) (f : FM) (sw : SM) (s : Hitachi.State) :
    (∀ x ∈ (Hitachi.generateIrCode hv t f sw s).1, 0 < x) ∧
    (Hitachi.generateIrCode hv t f sw s).1.length % 2 = 0 ∧
    0 < (Hitachi.generateIrCode hv t f sw s).1.length := by
  obtain ⟨g, hg⟩ : ∃ g, (Hitachi.generateIrCode hv t f sw s).1 =
      Hitachi.encodeToPulses g := ⟨_, rfl⟩
  have hl : ∀ g, (Hitachi.encodeToPulses g).length = 692 := by
    intro g
    simp [Hitachi.encodeToPulses, Hitachi.frameBytes, encodeBytesLSB_length,
      Hitachi.STATE_LENGTH]
  have hp : ∀ g, ∀ x ∈ Hitachi.encodeToPulses g, 0 < x := by
    intro g
    exact pos_append _ _
      (pos_append _ _ (by decide)
        (encodeBytesLSB_pos _ _ _ _ (by decide) (by decide) (by decide))) (by decide)
  refine ⟨?_, ?_, ?_⟩ <;> rw [hg]
  · exact hp _
  · rw [hl]
  · rw [hl]
    decide

theorem ballu_pulses_ok (hv : HM) (t : ℚ) (f : FM) (sw : SM) :
    (∀ x ∈ Ballu.generateIrCode hv t f sw, 0 < x) ∧
    (Ballu.generateIrCode hv t f sw).length % 2 = 1 ∧
    0 < (Ballu.generateIrCode hv t f sw).length := by
  have hf : (Ballu.frame hv t f sw).length = 13 := rfl
  have hg : Ballu.generateIrCode hv t f sw =
      Ballu.encodeToPulses (Ballu.frame hv t f sw) := rfl
  have hl : (Ballu.encodeToPulses (Ballu.frame hv t f sw)).length = 211 := by
    simp [Ballu.encodeToPulses, encodeBytesLSB_length, hf]
  have hp : ∀ rs, ∀ x ∈ Ballu.encodeToPulses rs, 0 < x := by
    intro rs
    exact pos_append _ _
      (pos_append _ _ (by decide)
        (encodeBytesLSB_pos _ _ _ _ (by decide) (by decide) (by decide))) (by decide)
  refine ⟨?_, ?_, ?_⟩ <;> rw [hg]
  · exact hp _
  · rw [hl]
  · rw [hl]
    decide

theorem tcl_pulses_ok (hv : HM) (t : ℚ) (f : FM) (sw : SM) :
    (∀ x ∈ TCL.generateIrCode hv t f sw, 0 < x) ∧
    (TCL.generateIrCode hv t f sw).length % 2 = 0 ∧
    0 < (TCL.generateIrCode hv t f sw).length := by
  have hf : (TCL.frame hv t f sw).length = 14 := rfl
  have hg : TCL.generateIrCode hv t f sw =
      TCL.encodeToPulses (TCL.frame hv t f sw) := rfl
  have hl : (TCL.encodeToPulses (TCL.frame hv t f sw)).length = 228 := by
    simp [TCL.encodeToPulses, encodeBytesLSB_length, hf]
  have hp : ∀ rs, ∀ x ∈ TCL.encodeToPulses rs, 0 < x := by
    intro rs
    exact pos_append _ _
      (pos_append _ _ (by decide)
        (encodeBytesLSB_pos _ _ _ _ (by decide) (by decide) (by decide))) (by decide)
  refine ⟨?_, ?_, ?_⟩ <;> rw [hg]
  · exact hp _
  · rw [hl]
  · rw [hl]
    decide

theorem general_pulses_ok (hv : HM) (t : ℚ) (f : FM) (sw : SM) :
    (∀ x ∈ General.generateIrCode hv t f sw, 0 < x) ∧
    (General.generateIrCode hv t f sw).length % 2 = 1 ∧
    0 < (General.generateIrCode hv t f sw).length := by
  have hf : (General.necFrame hv t f).length = 4 := rfl
  have hg : General.generateIrCode hv t f sw =
      General.encodeNecFrame (General.necFrame hv t f) := rfl
  have hl : (General.encodeNecFrame (General.necFrame hv t f)).length = 67 := by
    simp [General.encodeNecFrame, encodeBytesLSB_length, hf]
  have hp : ∀ fr, ∀ x ∈ General.encodeNecFrame fr, 0 < x := by
    intro fr
    exact pos_append _ _
      (pos_append _ _ (by decide)
        (encodeBytesLSB_pos _ _ _ _ (by decide) (by decide) (by decide))) (by decide)
  refine ⟨?_, ?_, ?_⟩ <;> rw [hg]
  · exact hp _
  · rw [hl]
  · rw [hl]
    decide

theorem whynter_pulses_ok (hv : HM) (t : ℚ) (f : FM) (sw : SM) (s : Whynter.State) :
    (∀ x ∈ (Whynter.generateIrCode hv t f sw s).1, 0 < x) ∧
    (Whynter.generateIrCode hv t f sw s).1.length % 2 = 1 ∧
    0 < (Whynter.generateIrCode hv t f sw s).1.length := by
  have hg : (Whynter.generateIrCode hv t f sw s).1 =
      Whynter.encodeToPulses (Whynter.finalWord hv t f s) := rfl
  have hl : ∀ v, (Whynter.encodeToPulses v).length = 67 := by
    intro v
    simp [Whynter.encodeToPulses, encodeWordMSB_length]
  have hp : ∀ v, ∀ x ∈ Whynter.encodeToPulses v, 0 < x := by
    intro v
    exact pos_append _ _
      (pos_append _ _ (by decide)
        (encodeWordMSB_pos _ _ _ _ _ (by decide) (by decide) (by decide))) (by decide)
  refine ⟨?_, ?_, ?_⟩ <;> rw [hg]
  · exact hp _
  · rw [hl]
  · rw [hl]
    decide

theorem yashima_pulses_ok (hv : HM) (t : ℚ) (f : FM) (sw : SM) :
    (∀ x ∈ Yashima.generateIrCode hv t f sw, 0 < x) ∧
    (Yashima.generateIrCode hv t f sw).length % 2 = 0 ∧
    0 < (Yashima.generateIrCode hv t f sw).length := by
  have hf : (Yashima.frame hv t f).length = 9 := rfl
  have hg : Yashima.generateIrCode hv t f sw =
      Yashima.encodeToPulses (Yashima.frame hv t f) := rfl
  have hl : (Yashima.encodeToPulses (Yashima.frame hv t f)).length = 148 := by
    simp [Yashima.encodeToPulses, encodeBytesMSB_length, hf]
  have hp : ∀ rs, ∀ x ∈ Yashima.encodeToPulses rs, 0 < x := by
    intro rs
    exact pos_append _ _
      (pos_append _ _ (by decide)
        (encodeBytesMSB_pos _ _ _ _ (by decide) (by decide) (by decide))) (by decide)
  refine ⟨?_, ?_, ?_⟩ <;> rw [hg]
  · exact hp _
  · rw [hl]
  · rw [hl]
    decide

theorem midea_data_ok (data : List ℕ) (hd : data.length = 5) :
    (∀ x ∈ Midea.encodeMideaData data, 0 < x) ∧
    (Midea.encodeMideaData data).length = 83 := by
  constructor
  · exact pos_append _ _
      (pos_append _ _ (by decide)
        (encodeBytesLSB_pos _ _ _ _ (by decide) (by decide) (by decide))) (by decide)
  · simp [Midea.encodeMideaData, encodeBytesLSB_length, hd]

theorem midea_pulses_ok (hv : HM) (t : ℚ) (f : FM) (sw : SM) (s : Midea.State) :
    (∀ x ∈ (Midea.generateIrCode hv t f sw s).1, 0 < x) ∧
    (Midea.generateIrCode hv t f sw s).1.length % 2 = 1 ∧
    0 < (Midea.generateIrCode hv t f sw s).1.length := by
  obtain ⟨d, hd, hc⟩ : ∃ d, d.length = 5 ∧
      (Midea.generateIrCode hv t f sw s).1 = Midea.encodeMideaData d := by
    simp only [Midea.generateIrCode]
    split_ifs
    · exact ⟨Midea.swingToggleData, rfl, rfl⟩
    · exact ⟨Midea.controlData hv t f s, rfl, rfl⟩
  refine ⟨?_, ?_, ?_⟩ <;> rw [hc]
  · exact (midea_data_ok d hd).1
  · rw [(midea_data_ok d hd).2]
  · rw [(midea_data_ok d hd).2]
    decide

theorem whirlpool_pulses_ok (hv : HM) (t : ℚ) (f : FM) (sw : SM) (s : Whirlpool.State) :
    (∀ x ∈ (Whirlpool.generateIrCode hv t f sw s).1, 0 < x) ∧
    (Whirlpool.generateIrCode hv t f sw s).1.length % 2 = 1 ∧
    0 < (Whirlpool.generateIrCode hv t f sw s).1.length := by
  have hg : (Whirlpool.generateIrCode hv t f sw s).1 =
      Whirlpool.encodeToPulses (Whirlpool.frame hv t f sw s) := rfl
  rw [hg]
  generalize Whirlpool.frame hv t f sw s = rs
  unfold Whirlpool.encodeToPulses
  have hL := length_flatMap_even (List.range rs.length)
    (fun i =>
      encodeByteLSB Whirlpool.BIT_MARK Whirlpool.ONE_SPACE Whirlpool.ZERO_SPACE
          (rs.getD i 0) ++
        (if i + 1 = 6 ∨ i + 1 = 14 then [Whirlpool.BIT_MARK, Whirlpool.GAP] else []))
    (by
      intro i _
      rw [List.length_append, encodeByteLSB_length]
      split_ifs <;> rfl)
  refine ⟨?_, ?_, ?_⟩
  · refine pos_append _ _ (pos_append _ _ (by decide) (pos_flatMap _ _ ?_)) (by decide)
    intro i _ x hx
    rcases List.mem_append.mp hx with hx1 | hx2
    · exact encodeByteLSB_pos _ _ _ _ (by decide) (by decide) (by decide) x hx1
    · split at hx2
      · simp only [List.mem_cons, List.not_mem_nil, or_false] at hx2
        rcases hx2 with rfl | rfl <;> decide
      · cases hx2
  · simp only [List.length_append, List.length_cons, List.length_nil]
    omega
  · simp only [List.length_append, List.length_cons, List.length_nil]
    omega

theorem daikin_pulses_ok (hv : HM) (t : ℚ) (f : FM) (sw : SM) :
    (∀ x ∈ Daikin.generateIrCode hv t f sw, 0 < x) ∧
    (Daikin.generateIrCode hv t f sw).length % 2 = 1 ∧
    0 < (Daikin.generateIrCode hv t f sw).length := by
  obtain ⟨rs, hfr, hg⟩ : ∃ rs, rs.length = 38 ∧
      Daikin.generateIrCode hv t f sw = Daikin.encodeToPulses rs := ⟨_, rfl, rfl⟩
  rw [hg]
  unfold Daikin.encodeToPulses
  refine ⟨?_, ?_, ?_⟩
  · exact pos_append _ _ (pos_append _ _ (pos_append _ _ (pos_append _ _
      (pos_append _ _ (pos_append _ _ (pos_append _ _ (pos_append _ _
        (by decide)
        (encodeBytesLSB_pos _ _ _ _ (by decide) (by decide) (by decide)))
        (by decide)) (by decide))
        (encodeBytesLSB_pos _ _ _ _ (by decide) (by decide) (by decide)))
        (by decide)) (by decide))
        (encodeBytesLSB_pos _ _ _ _ (by decide) (by decide) (by decide)))
      (by decide)
  · simp only [List.length_append, List.length_cons, List.length_nil,
      encodeBytesLSB_length, List.length_take, List.length_drop, hfr]
    omega
  · simp only [List.length_append, List.length_cons, List.length_nil,
      encodeBytesLSB_length, List.length_take, List.length_drop, hfr]
    omega

theorem mitsubishi_pulses_ok (hv : HM) (t : ℚ) (f : FM) (sw : SM)
    (s : Mitsubishi.State) :
    (∀ x ∈ Mitsubishi.generateIrCode hv t f sw s, 0 < x) ∧
    (Mitsubishi.generateIrCode hv t f sw s).length % 2 = 1 ∧
    0 < (Mitsubishi.generateIrCode hv t f sw s).length := by
  obtain ⟨rs, hfr, hg⟩ : ∃ rs, rs.length = 18 ∧
      Mitsubishi.generateIrCode hv t f sw s = Mitsubishi.encodeToPulses rs :=
    ⟨_, rfl, rfl⟩
  rw [hg]
  unfold Mitsubishi.encodeToPulses
  have hL := length_flatMap_even (List.range 2)
    (fun rep =>
      [Mitsubishi.HEADER_MARK, Mitsubishi.HEADER_SPACE] ++
        encodeBytesLSB Mitsubishi.BIT_MARK Mitsubishi.ONE_SPACE Mitsubishi.ZERO_SPACE rs ++
        (if rep = 0 then [Mitsubishi.BIT_MARK, Mitsubishi.MIN_GAP] else []))
    (by
      intro rep _
      simp only [List.length_append, List.length_cons, List.length_nil,
        encodeBytesLSB_length, hfr]
      split_ifs <;> rfl)
  refine ⟨?_, ?_, ?_⟩
  · refine pos_append _ _ (pos_flatMap _ _ ?_) (by decide)
    intro rep _ x hx
    rcases List.mem_append.mp hx with hx1 | hx2
    · rcases List.mem_append.mp hx1 with hx3 | hx4
      · simp only [List.mem_cons, List.not_mem_nil, or_false] at hx3
        rcases hx3 with rfl | rfl <;> decide
      · exact encodeBytesLSB_pos _ _ _ _ (by decide) (by decide) (by decide) x hx4
    · split at hx2
      · simp only [List.mem_cons, List.not_mem_nil, or_false] at hx2
        rcases hx2 with rfl | rfl <;> decide
      · cases hx2
  · simp only [List.length_append, List.length_cons, List.length_nil]
    omega
  · simp only [List.length_append, List.length_cons, List.length_nil]
    omega

theorem gree_pulses_ok (hv : HM) (t : ℚ) (f : FM) (sw : SM) (s : Gree.State) :
    (∀ x ∈ Gree.generateIrCode hv t f sw s, 0 < x) ∧
    (Gree.generateIrCode hv t f sw s).length % 2 = 1 ∧
    0 < (Gree.generateIrCode hv t f sw s).length := by
  obtain ⟨rs, hg⟩ : ∃ rs, Gree.generateIrCode hv t f sw s =
      Gree.encodeToPulses s rs := ⟨_, rfl⟩
  rw [hg]
  unfold Gree.encodeToPulses
  refine ⟨?_, ?_, ?_⟩
  · refine pos_append _ _ (pos_append _ _ (pos_append _ _ (pos_append _ _
      (pos_append _ _ (by decide)
        (encodeBytesLSB_pos _ _ _ _ (by decide) (by decide) (by decide)))
      (by decide)) ?_)
      (encodeBytesLSB_pos _ _ _ _ (by decide) (by decide) (by decide)))
      (by decide)
    intro x hx
    rcases List.mem_cons.mp hx with rfl | hx2
    · decide
    · rcases List.mem_cons.mp hx2 with rfl | hx3
      · split_ifs <;> decide
      · cases hx3
  · simp only [List.length_append, List.length_cons, List.length_nil,
      encodeBytesLSB_length, List.length_map, List.length_range]
  · simp only [List.length_append, List.length_cons, List.length_nil,
      encodeBytesLSB_length, List.length_map, List.length_range]
    omega

theorem fujitsu_etp_ok (msg : List ℕ) (n : ℕ) :
    (∀ x ∈ Fujitsu.encodeToPulses msg n, 0 < x) ∧
    (Fujitsu.encodeToPulses msg n).length = 4 + 16 * (msg.take n).length := by
  constructor
  · exact pos_append _ _ (pos_append _ _ (by decide)
      (encodeBytesLSB_pos _ _ _ _ (by decide) (by decide) (by decide))) (by decide)
  · simp only [Fujitsu.encodeToPulses, List.length_append, List.length_cons,
      List.length_nil, encodeBytesLSB_length]
    omega

theorem fujitsu_stateMessage_length (hv : HM) (t : ℚ) (f : FM) (sw : SM)
    (s : Fujitsu.State) : (Fujitsu.stateMessage hv t f sw s).length = 16 := by
  simp only [Fujitsu.stateMessage, Fujitsu.setNibble]
  split_ifs <;> simp [List.length_set]

theorem fujitsu_pulses_ok (hv : HM) (t : ℚ) (f : FM) (sw : SM) (s : Fujitsu.State) :
    (∀ x ∈ (Fujitsu.generateIrCode hv t f sw s).1, 0 < x) ∧
    (Fujitsu.generateIrCode hv t f sw s).1.length % 2 = 0 ∧
    0 < (Fujitsu.generateIrCode hv t f sw s).1.length := by
  simp only [Fujitsu.generateIrCode]
  split_ifs
  · refine ⟨(fujitsu_etp_ok _ _).1, ?_, ?_⟩ <;>
      rw [show ((Fujitsu.encodeToPulses Fujitsu.offMessage Fujitsu.UTIL_MESSAGE_LENGTH,
        ({ powerOn := false } : Fujitsu.State)).1) =
          Fujitsu.encodeToPulses Fujitsu.offMessage Fujitsu.UTIL_MESSAGE_LENGTH from rfl,
        (fujitsu_etp_ok _ _).2] <;> decide
  · refine ⟨(fujitsu_etp_ok _ _).1, ?_, ?_⟩ <;>
      rw [show ((Fujitsu.encodeToPulses
          (Fujitsu.stateMessage hv t f sw s) Fujitsu.STATE_MESSAGE_LENGTH,
        ({ powerOn := true } : Fujitsu.State)).1) =
          Fujitsu.encodeToPulses (Fujitsu.stateMessage hv t f sw s)
            Fujitsu.STATE_MESSAGE_LENGTH from rfl,
        (fujitsu_etp_ok _ _).2, List.length_take, fujitsu_stateMessage_length] <;>
      decide

theorem toshiba_etp_pos (msg : List ℕ) (nb rep : ℕ) :
    ∀ x ∈ Toshiba.encodeToPulses msg nb rep, 0 < x := by
  unfold Toshiba.encodeToPulses
  refine pos_flatMap _ _ ?_
  intro a _
  exact pos_append _ _ (pos_append _ _ (by decide)
    (encodeBytesMSB_pos _ _ _ _ (by decide) (by decide) (by decide))) (by decide)

theorem toshiba_etp_length (msg : List ℕ) (nb rep : ℕ) :
    (Toshiba.encodeToPulses msg nb rep).length =
      (rep + 1) * (4 + 16 * (msg.take nb).length) := by
  have h := length_flatMap_const (List.range (rep + 1))
    (fun _ =>
      [Toshiba.HEADER_MARK, Toshiba.HEADER_SPACE] ++
        encodeBytesMSB Toshiba.BIT_MARK Toshiba.ONE_SPACE Toshiba.ZERO_SPACE
          (msg.take nb) ++
        [Toshiba.BIT_MARK, Toshiba.GAP_SPACE])
    (4 + 16 * (msg.take nb).length)
    (by
      intro a _
      simp only [List.length_append, List.length_cons, List.length_nil,
        encodeBytesMSB_length]
      omega)
  simpa [Toshiba.encodeToPulses, List.length_range] using h

theorem toshiba_etp_even (msg : List ℕ) (nb rep : ℕ) :
    (Toshiba.encodeToPulses msg nb rep).length % 2 = 0 := by
  rw [toshiba_etp_length, Nat.mul_mod]
  have h : (4 + 16 * (msg.take nb).length) % 2 = 0 := by omega
  rw [h, Nat.mul_zero]

theorem toshiba_etp_len_pos (msg : List ℕ) (nb rep : ℕ) :
    0 < (Toshiba.encodeToPulses msg nb rep).length := by
  rw [toshiba_etp_length]
  exact Nat.mul_pos (by omega) (by omega)

theorem toshiba_genericCode_eq (hv : HM) (t : ℚ) (f : FM) (sw : SM) :
    Toshiba.genericCode hv t f sw =
      Toshiba.encodeToPulses (Toshiba.genericMessage hv t f) 9 1 := by
  unfold Toshiba.genericCode Toshiba.genericSwing
  split_ifs <;> simp

theorem toshiba_racCode_ok (model : ℕ) (hv : HM) (t : ℚ) (f : FM) (sw : SM) :
    (∀ x ∈ Toshiba.racCode model hv t f sw, 0 < x) ∧
    (Toshiba.racCode model hv t f sw).length % 2 = 0 ∧
    0 < (Toshiba.racCode model hv t f sw).length := by
  simp only [Toshiba.racCode, Toshiba.racSwing]
  refine ⟨?_, ?_, ?_⟩
  · intro x hx
    rcases List.mem_append.mp hx with hx1 | hx2
    · rcases List.mem_append.mp hx1 with hx3 | hx4
      · rcases List.mem_append.mp hx3 with hx5 | hx6
        · split at hx5
          · rcases List.mem_append.mp hx5 with hx7 | hx8
            · exact toshiba_etp_pos _ _ _ x hx7
            · exact toshiba_etp_pos _ _ _ x hx8
          · exact toshiba_etp_pos _ _ _ x hx5
        · simp only [List.mem_cons, List.not_mem_nil, or_false] at hx6
          rcases hx6 with rfl | rfl <;> decide
      · split at hx4
        · exact toshiba_etp_pos _ _ _ x hx4
        · exact toshiba_etp_pos _ _ _ x hx4
    · simp only [List.mem_cons, List.not_mem_nil, or_false] at hx2
      rcases hx2 with rfl | rfl <;> decide
  · split_ifs <;>
      simp only [List.length_append, List.length_cons, List.length_nil,
        toshiba_etp_length] <;>
      omega
  · split_ifs <;>
      simp only [List.length_append, List.length_cons, List.length_nil,
        toshiba_etp_length] <;>
      omega

theorem toshiba_rasCode_ok (hv : HM) (t : ℚ) (f : FM) :
    (∀ x ∈ Toshiba.rasCode hv t f, 0 < x) ∧
    (Toshiba.rasCode hv t f).length % 2 = 0 ∧
    0 < (Toshiba.rasCode hv t f).length := by
  simp only [Toshiba.rasCode]
  refine ⟨?_, ?_, ?_⟩
  · intro x hx
    split at hx
    · rcases List.mem_append.mp hx with hx1 | hx2
      · exact toshiba_etp_pos _ _ _ x hx1
      · exact toshiba_etp_pos _ _ _ x hx2
    · exact toshiba_etp_pos _ _ _ x hx
  · split_ifs <;>
      simp only [List.length_append, toshiba_etp_length] <;>
      omega
  · split_ifs <;>
      simp only [List.length_append, toshiba_etp_length] <;>
      omega

theorem toshiba_pulses_ok (hv : HM) (t : ℚ) (f : FM) (sw : SM) (s : Toshiba.State) :
    (∀ x ∈ (Toshiba.generateIrCode hv t f sw s).1, 0 < x) ∧
    (Toshiba.generateIrCode hv t f sw s).1.length % 2 = 0 ∧
    0 < (Toshiba.generateIrCode hv t f sw s).1.length := by
  simp only [Toshiba.generateIrCode]
  split_ifs with h1 h2 h3 h4
  · exact ⟨toshiba_etp_pos _ _ _, toshiba_etp_even _ _ _, toshiba_etp_len_pos _ _ _⟩
  · show (∀ x ∈ Toshiba.genericCode hv t f sw, 0 < x) ∧
      (Toshiba.genericCode hv t f sw).length % 2 = 0 ∧
      0 < (Toshiba.genericCode hv t f sw).length
    rw [toshiba_genericCode_eq]
    exact ⟨toshiba_etp_pos _ _ _, toshiba_etp_even _ _ _, toshiba_etp_len_pos _ _ _⟩
  · exact toshiba_racCode_ok _ _ _ _ _
  · exact toshiba_rasCode_ok _ _ _
  · show (∀ x ∈ Toshiba.genericCode hv t f sw, 0 < x) ∧
      (Toshiba.genericCode hv t f sw).length % 2 = 0 ∧
      0 < (Toshiba.genericCode hv t f sw).length
    rw [toshiba_genericCode_eq]
    exact ⟨toshiba_etp_pos _ _ _, toshiba_etp_even _ _ _, toshiba_etp_len_pos _ _ _⟩

/-- C5: for every brand and every command and protocol state, every duration
in the emitted pulse sequence is strictly positive and the sequence is
nonempty; read positionally (even index = mark, odd index = space, so the
sequence starts with a mark and alternates), its length is odd — ending on a
trailing mark — for every brand except the five whose encoder appends an
explicit final gap after the footer mark (TCL, Hitachi, Fujitsu, Toshiba,
Yashima), where the length is even, ending on that gap. -/
theorem c5_pulse_alternation_invariant :
    (∀ (hv : HM) (t : ℚ) (f : FM) (sw : SM) (s : LG.State),
      (∀ x ∈ (LG.generateIrCode hv t f sw s).1, 0 < x) ∧
      (LG.generateIrCode hv t f sw s).1.length % 2 = 1 ∧
      0 < (LG.generateIrCode hv t f sw s).1.length) ∧
    (∀ (hv : HM) (t : ℚ) (f : FM) (sw : SM) (s : Coolix.State),
      (∀ x ∈ (Coolix.generateIrCode hv t f sw s).1, 0 < x) ∧
      (Coolix.generateIrCode hv t f sw s).1.length % 2 = 1 ∧
      0 < (Coolix.generateIrCode hv t f sw s).1.length) ∧
    (∀ (hv : HM) (t : ℚ) (f : FM) (sw : SM) (s : Hitachi.State),
      (∀ x ∈ (Hitachi.generateIrCode hv t f sw s).1, 0 < x) ∧
      (Hitachi.generateIrCode hv t f sw s).1.length % 2 = 0 ∧
      0 < (Hitachi.generateIrCode hv t f sw s).1.length) ∧
    (∀ (hv : HM) (t : ℚ) (f : FM) (sw : SM),
      (∀ x ∈ Ballu.generateIrCode hv t f sw, 0 < x) ∧
      (Ballu.generateIrCode hv t f sw).length % 2 = 1 ∧
      0 < (Ballu.generateIrCode hv t f sw).length) ∧
    (∀ (hv : HM) (t : ℚ) (f : FM) (sw : SM),
      (∀ x ∈ TCL.generateIrCode hv t f sw, 0 < x) ∧
      (TCL.generateIrCode hv t f sw).length % 2 = 0 ∧
      0 < (TCL.generateIrCode hv t f sw).length) ∧
    (∀ (hv : HM) (t : ℚ) (f : FM) (sw : SM) (s : Whirlpool.State),
      (∀ x ∈ (Whirlpool.generateIrCode hv t f sw s).1, 0 < x) ∧
      (Whirlpool.generateIrCode hv t f sw s).1.length % 2 = 1 ∧
      0 < (Whirlpool.generateIrCode hv t f sw s).1.length) ∧
    (∀ (hv : HM) (t : ℚ) (f : FM) (sw : SM),
      (∀ x ∈ Daikin.generateIrCode hv t f sw, 0 < x) ∧
      (Daikin.generateIrCode hv t f sw).length % 2 = 1 ∧
      0 < (Daikin.generateIrCode hv t f sw).length) ∧
    (∀ (hv : HM) (t : ℚ) (f : FM) (sw : SM) (s : Mitsubishi.State),
      (∀ x ∈ Mitsubishi.generateIrCode hv t f sw s, 0 < x) ∧
      (Mitsubishi.generateIrCode hv t f sw s).length % 2 = 1 ∧
      0 < (Mitsubishi.generateIrCode hv t f sw s).length) ∧
    (∀ (hv : HM) (t : ℚ) (f : FM) (sw : SM) (s : Midea.State),
      (∀ x ∈ (Midea.generateIrCode hv t f sw s).1, 0 < x) ∧
      (Midea.generateIrCode hv t f sw s).1.length % 2 = 1 ∧
      0 < (Midea.generateIrCode hv t f sw s).1.length) ∧
    (∀ (hv : HM) (t : ℚ) (f : FM) (sw : SM),
      (∀ x ∈ General.generateIrCode hv t f sw, 0 < x) ∧
      (General.generateIrCode hv t f sw).length % 2 = 1 ∧
      0 < (General.generateIrCode hv t f sw).length) ∧
    (∀ (hv : HM) (t : ℚ) (f : FM) (sw : SM) (s : Whynter.State),
      (∀ x ∈ (Whynter.generateIrCode hv t f sw s).1, 0 < x) ∧
      (Whynter.generateIrCode hv t f sw s).1.length % 2 = 1 ∧
      0 < (Whynter.generateIrCode hv t f sw s).1.length) ∧
    (∀ (hv : HM) (t : ℚ) (f : FM) (sw : SM),
      (∀ x ∈ Yashima.generateIrCode hv t f sw, 0 < x) ∧
      (Yashima.generateIrCode hv t f sw).length % 2 = 0 ∧
      0 < (Yashima.generateIrCode hv t f sw).length) ∧
    (∀ (hv : HM) (t : ℚ) (f : FM) (sw : SM) (s : Gree.State),
      (∀ x ∈ Gree.generateIrCode hv t f sw s, 0 < x) ∧
      (Gree.generateIrCode hv t f sw s).length % 2 = 1 ∧
      0 < (Gree.generateIrCode hv t f sw s).length) ∧
    (∀ (hv : HM) (t : ℚ) (f : FM) (sw : SM) (s : Fujitsu.State),
      (∀ x ∈ (Fujitsu.generateIrCode hv t f sw s).1, 0 < x) ∧
      (Fujitsu.generateIrCode hv t f sw s).1.length % 2 = 0 ∧
      0 < (Fujitsu.generateIrCode hv t f sw s).1.length) ∧
    (∀ (hv : HM) (t : ℚ) (f : FM) (sw : SM) (s : Toshiba.State),
      (∀ x ∈ (Toshiba.generateIrCode hv t f sw s).1, 0 < x) ∧
      (Toshiba.generateIrCode hv t f sw s).1.length % 2 = 0 ∧
      0 < (Toshiba.generateIrCode hv t f sw s).1.length) :=
  ⟨lg_pulses_ok, coolix_pulses_ok, hitachi_pulses_ok, ballu_pulses_ok,
   tcl_pulses_ok, whirlpool_pulses_ok, daikin_pulses_ok, mitsubishi_pulses_ok,
   midea_pulses_ok, general_pulses_ok, whynter_pulses_ok, yashima_pulses_ok,
   gree_pulses_ok, fujitsu_pulses_ok, toshiba_pulses_ok⟩

/-! Temperature clamping: generic facts and per-brand congruence helpers. -/

theorem clamp_eq_lo (lo hi t : ℚ) (hlh : lo ≤ hi) (ht : t ≤ lo) :
    max lo (min hi t) = lo := by
  rw [min_eq_right (le_trans ht hlh)]
  exact max_eq_left ht

theorem clamp_eq_hi (lo hi t : ℚ) (hlh : lo ≤ hi) (ht : hi ≤ t) :
    max lo (min hi t) = hi := by
  rw [min_eq_left ht]
  exact max_eq_right hlh

theorem lg_temp_congr (hv : HM) (f : FM) (sw : SM) (s : LG.State) (t b : ℚ)
    (hc : max LG.TEMP_MIN (min LG.TEMP_MAX t) = max LG.TEMP_MIN (min LG.TEMP_MAX b)) :
    (LG.generateIrCode hv t f sw s).1 = (LG.generateIrCode hv b f sw s).1 := by
  unfold LG.generateIrCode LG.finalWord
  rw [hc]

theorem coolix_temp_congr (hv : HM) (f : FM) (sw : SM) (s : Coolix.State) (t b : ℚ)
    (hc : max Coolix.TEMP_MIN (min Coolix.TEMP_MAX t) =
      max Coolix.TEMP_MIN (min Coolix.TEMP_MAX b)) :
    (Coolix.generateIrCode hv t f sw s).1 = (Coolix.generateIrCode hv b f sw s).1 := by
  unfold Coolix.generateIrCode Coolix.normalWord
  rw [hc]

theorem ballu_temp_congr (hv : HM) (f : FM) (sw : SM) (t b : ℚ)
    (hc : max Ballu.TEMP_MIN (min Ballu.TEMP_MAX t) =
      max Ballu.TEMP_MIN (min Ballu.TEMP_MAX b)) :
    Ballu.generateIrCode hv t f sw = Ballu.generateIrCode hv b f sw := by
  unfold Ballu.generateIrCode Ballu.frame
  rw [hc]

theorem tcl_temp_congr (hv : HM) (f : FM) (sw : SM) (t b : ℚ)
    (hc : TCL.safeTemp t = TCL.safeTemp b) :
    TCL.generateIrCode hv t f sw = TCL.generateIrCode hv b f sw := by
  unfold TCL.generateIrCode TCL.frame TCL.halfDegrees
  rw [hc]

theorem whirlpool_temp_congr (hv : HM) (f : FM) (sw : SM) (s : Whirlpool.State)
    (t b : ℚ)
    (hc : max (Whirlpool.temperatureMin s) (min (Whirlpool.temperatureMax s) t) =
      max (Whirlpool.temperatureMin s) (min (Whirlpool.temperatureMax s) b)) :
    (Whirlpool.generateIrCode hv t f sw s).1 =
      (Whirlpool.generateIrCode hv b f sw s).1 := by
  unfold Whirlpool.generateIrCode Whirlpool.frame
  rw [hc]

theorem daikin_temp_congr (hv : HM) (f : FM) (sw : SM) (t b : ℚ)
    (hc : max Daikin.TEMP_MIN (min Daikin.TEMP_MAX t) =
      max Daikin.TEMP_MIN (min Daikin.TEMP_MAX b)) :
    Daikin.generateIrCode hv t f sw = Daikin.generateIrCode hv b f sw := by
  unfold Daikin.generateIrCode Daikin.frame Daikin.temperatureValue
  rw [hc]

theorem mitsubishi_temp_congr (hv : HM) (f : FM) (sw : SM) (s : Mitsubishi.State)
    (t b : ℚ)
    (hc : max Mitsubishi.TEMP_MIN (min Mitsubishi.TEMP_MAX t) =
      max Mitsubishi.TEMP_MIN (min Mitsubishi.TEMP_MAX b)) :
    Mitsubishi.generateIrCode hv t f sw s = Mitsubishi.generateIrCode hv b f sw s := by
  unfold Mitsubishi.generateIrCode Mitsubishi.frame
  rw [hc]

theorem general_temp_congr (hv : HM) (f : FM) (sw : SM) (t b : ℚ)
    (hc : max General.TEMP_MIN (min General.TEMP_MAX t) =
      max General.TEMP_MIN (min General.TEMP_MAX b)) :
    General.generateIrCode hv t f sw = General.generateIrCode hv b f sw := by
  unfold General.generateIrCode General.necFrame
  rw [hc]

theorem whynter_temp_congr (hv : HM) (f : FM) (sw : SM) (s : Whynter.State) (t b : ℚ)
    (hc : max Whynter.TEMP_MIN (min Whynter.TEMP_MAX t) =
      max Whynter.TEMP_MIN (min Whynter.TEMP_MAX b)) :
    (Whynter.generateIrCode hv t f sw s).1 = (Whynter.generateIrCode hv b f sw s).1 := by
  unfold Whynter.generateIrCode Whynter.finalWord
  rw [hc]

theorem yashima_temp_congr (hv : HM) (f : FM) (sw : SM) (t b : ℚ)
    (hc : max Yashima.TEMP_MIN (min Yashima.TEMP_MAX t) =
      max Yashima.TEMP_MIN (min Yashima.TEMP_MAX b)) :
    Yashima.generateIrCode hv t f sw = Yashima.generateIrCode hv b f sw := by
  unfold Yashima.generateIrCode Yashima.frame
  rw [hc]

theorem gree_temp_congr (hv : HM) (f : FM) (sw : SM) (s : Gree.State) (t b : ℚ)
    (hc : max Gree.TEMP_MIN (min Gree.TEMP_MAX t) =
      max Gree.TEMP_MIN (min Gree.TEMP_MAX b)) :
    Gree.generateIrCode hv t f sw s = Gree.generateIrCode hv b f sw s := by
  unfold Gree.generateIrCode Gree.frame Gree.temperatureValue
  rw [hc]

theorem fujitsu_temp_congr (hv : HM) (f : FM) (sw : SM) (s : Fujitsu.State) (t b : ℚ)
    (hc : max Fujitsu.TEMP_MIN (min Fujitsu.TEMP_MAX t) =
      max Fujitsu.TEMP_MIN (min Fujitsu.TEMP_MAX b)) :
    (Fujitsu.generateIrCode hv t f sw s).1 = (Fujitsu.generateIrCode hv b f sw s).1 := by
  unfold Fujitsu.generateIrCode Fujitsu.stateMessage
  rw [hc]

theorem midea_temp_congr (hv : HM) (f : FM) (sw : SM) (s : Midea.State) (t b : ℚ)
    (hF : s.fahrenheitMode = false)
    (hc : max Midea.TEMPC_MIN (min Midea.TEMPC_MAX t) =
      max Midea.TEMPC_MIN (min Midea.TEMPC_MAX b)) :
    (Midea.generateIrCode hv t f sw s).1 = (Midea.generateIrCode hv b f sw s).1 := by
  have hdata : Midea.controlData hv t f s = Midea.controlData hv b f s := by
    simp [Midea.controlData, hF, hc]
  unfold Midea.generateIrCode
  rw [hdata]

theorem toshiba_generic_congr (hv : HM) (f : FM) (sw : SM) (t b : ℚ)
    (hc : max Toshiba.TEMP_MIN_GENERIC (min Toshiba.TEMP_MAX_GENERIC t) =
      max Toshiba.TEMP_MIN_GENERIC (min Toshiba.TEMP_MAX_GENERIC b)) :
    Toshiba.genericCode hv t f sw = Toshiba.genericCode hv b f sw := by
  unfold Toshiba.genericCode Toshiba.genericMessage
  rw [hc]

theorem toshiba_rac_congr (model : ℕ) (hv : HM) (f : FM) (sw : SM) (t b : ℚ)
    (hc : max Toshiba.TEMP_MIN_RAC_PT1411HWRU (min Toshiba.TEMP_MAX_RAC_PT1411HWRU t) =
      max Toshiba.TEMP_MIN_RAC_PT1411HWRU (min Toshiba.TEMP_MAX_RAC_PT1411HWRU b)) :
    Toshiba.racCode model hv t f sw = Toshiba.racCode model hv b f sw := by
  unfold Toshiba.racCode Toshiba.racMain
  rw [hc]

/-- Hitachi pulses do not depend on the temperature at all, so clamping holds
vacuously; restated here for the clamping claim via the shared congruence. -/
theorem hitachi_temp_congr (hv : HM) (f : FM) (sw : SM) (s : Hitachi.State)
    (t b : ℚ) :
    (Hitachi.generateIrCode hv t f sw s).1 = (Hitachi.generateIrCode hv b f sw s).1 := by
  simp only [Hitachi.generateIrCode]
  rw [hitachi_preInvert_temp_irrel hv t b f sw s]

theorem toshiba_clamp (hv : HM) (f : FM) (sw : SM) (s : Toshiba.State) (t : ℚ)
    (hm : s.model ≠ Toshiba.MODEL_RAS_2819T) :
    (t ≤ Toshiba.temperatureMin s →
      (Toshiba.generateIrCode hv t f sw s).1 =
        (Toshiba.generateIrCode hv (Toshiba.temperatureMin s) f sw s).1) ∧
    (Toshiba.temperatureMax s ≤ t →
      (Toshiba.generateIrCode hv t f sw s).1 =
        (Toshiba.generateIrCode hv (Toshiba.temperatureMax s) f sw s).1) := by
  have hsc : ∀ t' : ℚ, ¬ Toshiba.swingOnlyShortcut hv t' f sw s :=
    fun t' hcon => hm hcon.1
  have hpul : ∀ t' : ℚ, (Toshiba.generateIrCode hv t' f sw s).1 =
      (if s.model = Toshiba.MODEL_GENERIC then Toshiba.genericCode hv t' f sw
       else if s.model = Toshiba.MODEL_RAC_PT1411HWRU_C ∨
           s.model = Toshiba.MODEL_RAC_PT1411HWRU_F then
         Toshiba.racCode s.model hv t' f sw
       else if s.model = Toshiba.MODEL_RAS_2819T then Toshiba.rasCode hv t' f
       else Toshiba.genericCode hv t' f sw) := by
    intro t'
    simp only [Toshiba.generateIrCode, if_neg (hsc t')]
  by_cases h2 : s.model = Toshiba.MODEL_RAC_PT1411HWRU_C ∨
      s.model = Toshiba.MODEL_RAC_PT1411HWRU_F
  · have hmin : Toshiba.temperatureMin s = Toshiba.TEMP_MIN_RAC_PT1411HWRU := by
      unfold Toshiba.temperatureMin
      rw [if_pos h2]
    have hmax : Toshiba.temperatureMax s = Toshiba.TEMP_MAX_RAC_PT1411HWRU := by
      unfold Toshiba.temperatureMax
      rw [if_pos h2]
    have h1 : s.model ≠ Toshiba.MODEL_GENERIC := by
      rcases h2 with h | h <;> rw [h] <;> decide
    constructor <;> intro ht
    · rw [hpul t, hpul (Toshiba.temperatureMin s), if_neg h1, if_neg h1,
        if_pos h2, if_pos h2]
      refine toshiba_rac_congr _ _ _ _ _ _ ?_
      rw [hmin, clamp_eq_lo _ _ _ (by decide) (hmin ▸ ht),
        clamp_eq_lo _ _ _ (by decide) le_rfl]
    · rw [hpul t, hpul (Toshiba.temperatureMax s), if_neg h1, if_neg h1,
        if_pos h2, if_pos h2]
      refine toshiba_rac_congr _ _ _ _ _ _ ?_
      rw [hmax, clamp_eq_hi _ _ _ (by decide) (hmax ▸ ht),
        clamp_eq_hi _ _ _ (by decide) le_rfl]
  · have hmin : Toshiba.temperatureMin s = Toshiba.TEMP_MIN_GENERIC := by
      unfold Toshiba.temperatureMin
      rw [if_neg h2, if_neg hm]
    have hmax : Toshiba.temperatureMax s = Toshiba.TEMP_MAX_GENERIC := by
      unfold Toshiba.temperatureMax
      rw [if_neg h2, if_neg hm]
    by_cases h1 : s.model = Toshiba.MODEL_GENERIC
    · constructor <;> intro ht
      · rw [hpul t, hpul (Toshiba.temperatureMin s), if_pos h1, if_pos h1]
        refine toshiba_generic_congr _ _ _ _ _ ?_
        rw [hmin, clamp_eq_lo _ _ _ (by decide) (hmin ▸ ht),
          clamp_eq_lo _ _ _ (by decide) le_rfl]
      · rw [hpul t, hpul (Toshiba.temperatureMax s), if_pos h1, if_pos h1]
        refine toshiba_generic_congr _ _ _ _ _ ?_
        rw [hmax, clamp_eq_hi _ _ _ (by decide) (hmax ▸ ht),
          clamp_eq_hi _ _ _ (by decide) le_rfl]
    · constructor <;> intro ht
      · rw [hpul t, hpul (Toshiba.temperatureMin s), if_neg h1, if_neg h1,
          if_neg h2, if_neg h2, if_neg hm, if_neg hm]
        refine toshiba_generic_congr _ _ _ _ _ ?_
        rw [hmin, clamp_eq_lo _ _ _ (by decide) (hmin ▸ ht),
          clamp_eq_lo _ _ _ (by decide) le_rfl]
      · rw [hpul t, hpul (Toshiba.temperatureMax s), if_neg h1, if_neg h1,
          if_neg h2, if_neg h2, if_neg hm, if_neg hm]
        refine toshiba_generic_congr _ _ _ _ _ ?_
        rw [hmax, clamp_eq_hi _ _ _ (by decide) (hmax ▸ ht),
          clamp_eq_hi _ _ _ (by decide) le_rfl]

theorem whirlpool_bounds_le (s : Whirlpool.State) :
    Whirlpool.temperatureMin s ≤ Whirlpool.temperatureMax s := by
  unfold Whirlpool.temperatureMin Whirlpool.temperatureMax
  split_ifs <;> decide

/-- C6 counterexample: for the Toshiba RAS-2819T model, `temperature_min` is
18, yet `generate_ir_code` at `target_temp = 17` does not encode like 18:
`_get_ras_2819t_temp_code` looks up `int(temperature) - 18` without clamping
and falls back to the 24-degree code `0x40`, so 17 encodes as 24 would, not
as the boundary 18 — out-of-range temperatures are not clamped here. -/
theorem c6_counterexample_toshiba_ras_below_min :
    Toshiba.temperatureMin (Toshiba.freshModel Toshiba.MODEL_RAS_2819T) = 18 ∧
    (17 : ℚ) < 18 ∧
    (Toshiba.generateIrCode HM.cool 17 FM.auto SM.off
        (Toshiba.freshModel Toshiba.MODEL_RAS_2819T)).1 ≠
      (Toshiba.generateIrCode HM.cool 18 FM.auto SM.off
        (Toshiba.freshModel Toshiba.MODEL_RAS_2819T)).1 := by
  refine ⟨by decide, by decide, by decide⟩

/-- C6 amended: out-of-range temperatures are clamped — a `target_temp` at or
below `temperature_min` produces the same pulse sequence as `temperature_min`,
and one at or above `temperature_max` the same as `temperature_max` — for
every brand except two code paths that bypass the clamp: the Toshiba
RAS-2819T model (unclamped table lookup with a 24-degree fall-back) and Midea
in Fahrenheit mode (which converts the Celsius argument before clamping to
the Fahrenheit range, so values below its `temperature_min` of 62 °F encode
by their converted value, not the boundary).  Hitachi satisfies it vacuously:
its pulses do not depend on the temperature at all. -/
theorem c6_amended_clamping :
    (∀ (hv : HM) (f : FM) (sw : SM) (s : LG.State) (t : ℚ),
      (t ≤ LG.TEMP_MIN → (LG.generateIrCode hv t f sw s).1 =
        (LG.generateIrCode hv LG.TEMP_MIN f sw s).1) ∧
      (LG.TEMP_MAX ≤ t → (LG.generateIrCode hv t f sw s).1 =
        (LG.generateIrCode hv LG.TEMP_MAX f sw s).1)) ∧
    (∀ (hv : HM) (f : FM) (sw : SM) (s : Coolix.State) (t : ℚ),
      (t ≤ Coolix.TEMP_MIN → (Coolix.generateIrCode hv t f sw s).1 =
        (Coolix.generateIrCode hv Coolix.TEMP_MIN f sw s).1) ∧
      (Coolix.TEMP_MAX ≤ t → (Coolix.generateIrCode hv t f sw s).1 =
        (Coolix.generateIrCode hv Coolix.TEMP_MAX f sw s).1)) ∧
    (∀ (hv : HM) (f : FM) (sw : SM) (s : Hitachi.State) (t : ℚ),
      (t ≤ (16 : ℚ) → (Hitachi.generateIrCode hv t f sw s).1 =
        (Hitachi.generateIrCode hv (16 : ℚ) f sw s).1) ∧
      ((32 : ℚ) ≤ t → (Hitachi.generateIrCode hv t f sw s).1 =
        (Hitachi.generateIrCode hv (32 : ℚ) f sw s).1)) ∧
    (∀ (hv : HM) (f : FM) (sw : SM) (t : ℚ),
      (t ≤ Ballu.TEMP_MIN → Ballu.generateIrCode hv t f sw =
        Ballu.generateIrCode hv Ballu.TEMP_MIN f sw) ∧
      (Ballu.TEMP_MAX ≤ t → Ballu.generateIrCode hv t f sw =
        Ballu.generateIrCode hv Ballu.TEMP_MAX f sw)) ∧
    (∀ (hv : HM) (f : FM) (sw : SM) (t : ℚ),
      (t ≤ TCL.TEMP_MIN → TCL.generateIrCode hv t f sw =
        TCL.generateIrCode hv TCL.TEMP_MIN f sw) ∧
      (TCL.TEMP_MAX ≤ t → TCL.generateIrCode hv t f sw =
        TCL.generateIrCode hv TCL.TEMP_MAX f sw)) ∧
    (∀ (hv : HM) (f : FM) (sw : SM) (s : Whirlpool.State) (t : ℚ),
      (t ≤ Whirlpool.temperatureMin s → (Whirlpool.generateIrCode hv t f sw s).1 =
        (Whirlpool.generateIrCode hv (Whirlpool.temperatureMin s) f sw s).1) ∧
      (Whirlpool.temperatureMax s ≤ t → (Whirlpool.generateIrCode hv t f sw s).1 =
        (Whirlpool.generateIrCode hv (Whirlpool.temperatureMax s) f sw s).1)) ∧
    (∀ (hv : HM) (f : FM) (sw : SM) (t : ℚ),
      (t ≤ Daikin.TEMP_MIN → Daikin.generateIrCode hv t f sw =
        Daikin.generateIrCode hv Daikin.TEMP_MIN f sw) ∧
      (Daikin.TEMP_MAX ≤ t → Daikin.generateIrCode hv t f sw =
        Daikin.generateIrCode hv Daikin.TEMP_MAX f sw)) ∧
    (∀ (hv : HM) (f : FM) (sw : SM) (s : Mitsubishi.State) (t : ℚ),
      (t ≤ Mitsubishi.TEMP_MIN → Mitsubishi.generateIrCode hv t f sw s =
        Mitsubishi.generateIrCode hv Mitsubishi.TEMP_MIN f sw s) ∧
      (Mitsubishi.TEMP_MAX ≤ t → Mitsubishi.generateIrCode hv t f sw s =
        Mitsubishi.generateIrCode hv Mitsubishi.TEMP_MAX f sw s)) ∧
    (∀ (hv : HM) (f : FM) (sw : SM) (s : Midea.State) (t : ℚ),
      s.fahrenheitMode = false →
      (t ≤ Midea.TEMPC_MIN → (Midea.generateIrCode hv t f sw s).1 =
        (Midea.generateIrCode hv Midea.TEMPC_MIN f sw s).1) ∧
      (Midea.TEMPC_MAX ≤ t → (Midea.generateIrCode hv t f sw s).1 =
        (Midea.generateIrCode hv Midea.TEMPC_MAX f sw s).1)) ∧
    (∀ (hv : HM) (f : FM) (sw : SM) (t : ℚ),
      (t ≤ General.TEMP_MIN → General.generateIrCode hv t f sw =
        General.generateIrCode hv General.TEMP_MIN f sw) ∧
      (General.TEMP_MAX ≤ t → General.generateIrCode hv t f sw =
        General.generateIrCode hv General.TEMP_MAX f sw)) ∧
    (∀ (hv : HM) (f : FM) (sw : SM) (s : Whynter.State) (t : ℚ),
      (t ≤ Whynter.TEMP_MIN → (Whynter.generateIrCode hv t f sw s).1 =
        (Whynter.generateIrCode hv Whynter.TEMP_MIN f sw s).1) ∧
      (Whynter.TEMP_MAX ≤ t → (Whynter.generateIrCode hv t f sw s).1 =
        (Whynter.generateIrCode hv Whynter.TEMP_MAX f sw s).1)) ∧
    (∀ (hv : HM) (f : FM) (sw : SM) (t : ℚ),
      (t ≤ Yashima.TEMP_MIN → Yashima.generateIrCode hv t f sw =
        Yashima.generateIrCode hv Yashima.TEMP_MIN f sw) ∧
      (Yashima.TEMP_MAX ≤ t → Yashima.generateIrCode hv t f sw =
        Yashima.generateIrCode hv Yashima.TEMP_MAX f sw)) ∧
    (∀ (hv : HM) (f : FM) (sw : SM) (s : Gree.State) (t : ℚ),
      (t ≤ Gree.TEMP_MIN → Gree.generateIrCode hv t f sw s =
        Gree.generateIrCode hv Gree.TEMP_MIN f sw s) ∧
      (Gree.TEMP_MAX ≤ t → Gree.generateIrCode hv t f sw s =
        Gree.generateIrCode hv Gree.TEMP_MAX f sw s)) ∧
    (∀ (hv : HM) (f : FM) (sw : SM) (s : Fujitsu.State) (t : ℚ),
      (t ≤ Fujitsu.TEMP_MIN → (Fujitsu.generateIrCode hv t f sw s).1 =
        (Fujitsu.generateIrCode hv Fujitsu.TEMP_MIN f sw s).1) ∧
      (Fujitsu.TEMP_MAX ≤ t → (Fujitsu.generateIrCode hv t f sw s).1 =
        (Fujitsu.generateIrCode hv Fujitsu.TEMP_MAX f sw s).1)) ∧
    (∀ (hv : HM) (f : FM) (sw : SM) (s : Toshiba.State) (t : ℚ),
      s.model ≠ Toshiba.MODEL_RAS_2819T →
      (t ≤ Toshiba.temperatureMin s → (Toshiba.generateIrCode hv t f sw s).1 =
        (Toshiba.generateIrCode hv (Toshiba.temperatureMin s) f sw s).1) ∧
      (Toshiba.temperatureMax s ≤ t → (Toshiba.generateIrCode hv t f sw s).1 =
        (Toshiba.generateIrCode hv (Toshiba.temperatureMax s) f sw s).1)) := by
  refine ⟨?_, ?_, ?_, ?_, ?_, ?_, ?_, ?_, ?_, ?_, ?_, ?_, ?_, ?_, ?_⟩
  · intro hv f sw s t
    exact ⟨fun ht => lg_temp_congr hv f sw s t LG.TEMP_MIN
        (by rw [clamp_eq_lo _ _ _ (by decide) ht, clamp_eq_lo _ _ _ (by decide) le_rfl]),
      fun ht => lg_temp_congr hv f sw s t LG.TEMP_MAX
        (by rw [clamp_eq_hi _ _ _ (by decide) ht, clamp_eq_hi _ _ _ (by decide) le_rfl])⟩
  · intro hv f sw s t
    exact ⟨fun ht => coolix_temp_congr hv f sw s t Coolix.TEMP_MIN
        (by rw [clamp_eq_lo _ _ _ (by decide) ht, clamp_eq_lo _ _ _ (by decide) le_rfl]),
      fun ht => coolix_temp_congr hv f sw s t Coolix.TEMP_MAX
        (by rw [clamp_eq_hi _ _ _ (by decide) ht, clamp_eq_hi _ _ _ (by decide) le_rfl])⟩
  · intro hv f sw s t
    exact ⟨fun _ => hitachi_temp_congr hv f sw s t 16,
      fun _ => hitachi_temp_congr hv f sw s t 32⟩
  · intro hv f sw t
    exact ⟨fun ht => ballu_temp_congr hv f sw t Ballu.TEMP_MIN
        (by rw [clamp_eq_lo _ _ _ (by decide) ht, clamp_eq_lo _ _ _ (by decide) le_rfl]),
      fun ht => ballu_temp_congr hv f sw t Ballu.TEMP_MAX
        (by rw [clamp_eq_hi _ _ _ (by decide) ht, clamp_eq_hi _ _ _ (by decide) le_rfl])⟩
  · intro hv f sw t
    exact ⟨fun ht => tcl_temp_congr hv f sw t TCL.TEMP_MIN
        (by unfold TCL.safeTemp
            rw [clamp_eq_lo _ _ _ (by decide) ht, clamp_eq_lo _ _ _ (by decide) le_rfl]),
      fun ht => tcl_temp_congr hv f sw t TCL.TEMP_MAX
        (by unfold TCL.safeTemp
            rw [clamp_eq_hi _ _ _ (by decide) ht, clamp_eq_hi _ _ _ (by decide) le_rfl])⟩
  · intro hv f sw s t
    exact ⟨fun ht => whirlpool_temp_congr hv f sw s t (Whirlpool.temperatureMin s)
        (by rw [clamp_eq_lo _ _ _ (whirlpool_bounds_le s) ht,
              clamp_eq_lo _ _ _ (whirlpool_bounds_le s) le_rfl]),
      fun ht => whirlpool_temp_congr hv f sw s t (Whirlpool.temperatureMax s)
        (by rw [clamp_eq_hi _ _ _ (whirlpool_bounds_le s) ht,
              clamp_eq_hi _ _ _ (whirlpool_bounds_le s) le_rfl])⟩
  · intro hv f sw t
    exact ⟨fun ht => daikin_temp_congr hv f sw t Daikin.TEMP_MIN
        (by rw [clamp_eq_lo _ _ _ (by decide) ht, clamp_eq_lo _ _ _ (by decide) le_rfl]),
      fun ht => daikin_temp_congr hv f sw t Daikin.TEMP_MAX
        (by rw [clamp_eq_hi _ _ _ (by decide) ht, clamp_eq_hi _ _ _ (by decide) le_rfl])⟩
  · intro hv f sw s t
    exact ⟨fun ht => mitsubishi_temp_congr hv f sw s t Mitsubishi.TEMP_MIN
        (by rw [clamp_eq_lo _ _ _ (by decide) ht, clamp_eq_lo _ _ _ (by decide) le_rfl]),
      fun ht => mitsubishi_temp_congr hv f sw s t Mitsubishi.TEMP_MAX
        (by rw [clamp_eq_hi _ _ _ (by decide) ht, clamp_eq_hi _ _ _ (by decide) le_rfl])⟩
  · intro hv f sw s t hF
    exact ⟨fun ht => midea_temp_congr hv f sw s t Midea.TEMPC_MIN hF
        (by rw [clamp_eq_lo _ _ _ (by decide) ht, clamp_eq_lo _ _ _ (by decide) le_rfl]),
      fun ht => midea_temp_congr hv f sw s t Midea.TEMPC_MAX hF
        (by rw [clamp_eq_hi _ _ _ (by decide) ht, clamp_eq_hi _ _ _ (by decide) le_rfl])⟩
  · intro hv f sw t
    exact ⟨fun ht => general_temp_congr hv f sw t General.TEMP_MIN
        (by rw [clamp_eq_lo _ _ _ (by decide) ht, clamp_eq_lo _ _ _ (by decide) le_rfl]),
      fun ht => general_temp_congr hv f sw t General.TEMP_MAX
        (by rw [clamp_eq_hi _ _ _ (by decide) ht, clamp_eq_hi _ _ _ (by decide) le_rfl])⟩
  · intro hv f sw s t
    exact ⟨fun ht => whynter_temp_congr hv f sw s t Whynter.TEMP_MIN
        (by rw [clamp_eq_lo _ _ _ (by decide) ht, clamp_eq_lo _ _ _ (by decide) le_rfl]),
      fun ht => whynter_temp_congr hv f sw s t Whynter.TEMP_MAX
        (by rw [clamp_eq_hi _ _ _ (by decide) ht, clamp_eq_hi _ _ _ (by decide) le_rfl])⟩
  · intro hv f sw t
    exact ⟨fun ht => yashima_temp_congr hv f sw t Yashima.TEMP_MIN
        (by rw [clamp_eq_lo _ _ _ (by decide) ht, clamp_eq_lo _ _ _ (by decide) le_rfl]),
      fun ht => yashima_temp_congr hv f sw t Yashima.TEMP_MAX
        (by rw [clamp_eq_hi _ _ _ (by decide) ht, clamp_eq_hi _ _ _ (by decide) le_rfl])⟩
  · intro hv f sw s t
    exact ⟨fun ht => gree_temp_congr hv f sw s t Gree.TEMP_MIN
        (by rw [clamp_eq_lo _ _ _ (by decide) ht, clamp_eq_lo _ _ _ (by decide) le_rfl]),
      fun ht => gree_temp_congr hv f sw s t Gree.TEMP_MAX
        (by rw [clamp_eq_hi _ _ _ (by decide) ht, clamp_eq_hi _ _ _ (by decide) le_rfl])⟩
  · intro hv f sw s t
    exact ⟨fun ht => fujitsu_temp_congr hv f sw s t Fujitsu.TEMP_MIN
        (by rw [clamp_eq_lo _ _ _ (by decide) ht, clamp_eq_lo _ _ _ (by decide) le_rfl]),
      fun ht => fujitsu_temp_congr hv f sw s t Fujitsu.TEMP_MAX
        (by rw [clamp_eq_hi _ _ _ (by decide) ht, clamp_eq_hi _ _ _ (by decide) le_rfl])⟩
  · intro hv f sw s t hm
    exact toshiba_clamp hv f sw s t hm

/-- Witness for C6's amended statement: LG below its minimum (10 ≤ 18) and
TCL above its maximum (31 ≤ 35) encode like the respective boundary. -/
theorem c6_amended_clamping_witness :
    ((10 : ℚ) ≤ LG.TEMP_MIN ∧
      (LG.generateIrCode HM.cool 10 FM.auto SM.off LG.fresh).1 =
        (LG.generateIrCode HM.cool LG.TEMP_MIN FM.auto SM.off LG.fresh).1) ∧
    (TCL.TEMP_MAX ≤ (35 : ℚ) ∧
      TCL.generateIrCode HM.cool 35 FM.auto SM.off =
        TCL.generateIrCode HM.cool TCL.TEMP_MAX FM.auto SM.off) :=
  ⟨⟨by decide, (c6_amended_clamping.1 HM.cool FM.auto SM.off LG.fresh 10).1 (by decide)⟩,
   ⟨by decide, (c6_amended_clamping.2.2.2.2.1 HM.cool FM.auto SM.off 35).2 (by decide)⟩⟩
